import Mathlib

/-!
Verification development for the deterministic multi-step engine.

The Python sources (`src/trace.py`, `src/looping.py`, `src/steps.py`,
`src/routing.py`, `src/orchestration.py`, `src/execution.py`,
`src/invariants.py`, `src/validation.py`, `src/engine.py`) are shallowly
embedded below.  Python JSON-like values are modelled by the inductive
type `J`; Python dicts are association lists with unique keys that keep
insertion order; Python exceptions are modelled by `Except String`.
-/

namespace DetEngine

/-- JSON-like Python value (dict / list / str / int / bool / None).
Floats never occur in the engine's own data, so they are not modelled. -/
inductive J where
  | null
  | bool (b : Bool)
  | int (n : Int)
  | str (s : String)
  | arr (xs : List J)
  | obj (kvs : List (String × J))

/-- A Python dict with string keys, in insertion order. -/
abbrev Dict := List (String × J)

/-- `d[k]` lookup: first binding of key `k`. -/
def jlookup (kvs : Dict) (k : String) : Option J :=
  match kvs with
  | [] => none
  | (k', v) :: rest => if k' = k then some v else jlookup rest k

/-- Python `d.get(k)`: `None` when the key is missing. -/
def getOr (kvs : Dict) (k : String) : J :=
  (jlookup kvs k).getD J.null

/-- Python `d.get(k, default)`. -/
def getDefault (kvs : Dict) (k : String) (d : J) : J :=
  (jlookup kvs k).getD d

/-- Python `d[k] = v`: replace the binding in place, or append a fresh key. -/
def jsetKey (kvs : Dict) (k : String) (v : J) : Dict :=
  match kvs with
  | [] => [(k, v)]
  | (k', w) :: rest => if k' = k then (k', v) :: rest else (k', w) :: jsetKey rest k v

/-- Python `d.pop(k, None)` result dict: drop the binding of `k`. -/
def jerase (kvs : Dict) (k : String) : Dict :=
  kvs.filter (fun kv => kv.1 ≠ k)

/-- Python truthiness of a JSON-like value. -/
def jtruthy : J → Bool
  | .null => false
  | .bool b => b
  | .int n => n ≠ 0
  | .str s => s ≠ ""
  | .arr xs => !xs.isEmpty
  | .obj kvs => !kvs.isEmpty

/-- Python `x == s` where `s` is a string literal. -/
def jIsStr (v : J) (s : String) : Bool :=
  match v with
  | .str t => t = s
  | _ => false

/-- Python `isinstance(x, int)` (a Python `bool` is also an `int`). -/
def pyIsInt : J → Bool
  | .int _ => true
  | .bool _ => true
  | _ => false

/-- Python `int(x)` on values that `isinstance(x, int)` accepts. -/
def pyToInt : J → Int
  | .int n => n
  | .bool b => if b then 1 else 0
  | _ => 0

/-- Python whitespace, restricted to the ASCII whitespace characters
(`' '`, `\t`, `\n`, `\r`, `\x0b`, `\x0c`); the Unicode space classes are
outside the model. -/
def pyIsSpace (c : Char) : Bool :=
  c = ' ' || c = '\t' || c = '\n' || c = '\r' || c.toNat = 11 || c.toNat = 12

/-- Python `s.strip()` over the modelled whitespace. -/
def pyStrip (s : String) : String :=
  String.mk (((s.data.dropWhile pyIsSpace).reverse.dropWhile pyIsSpace).reverse)

/-- Python `s.split(sep)` for a single-character separator. -/
def splitOnCharList (sep : Char) : List Char → List (List Char)
  | [] => [[]]
  | c :: rest =>
    match splitOnCharList sep rest with
    | [] => [[]]
    | seg :: segs => if c = sep then [] :: seg :: segs else (c :: seg) :: segs

/-- Python `path.split(".")`. -/
def splitDots (s : String) : List String :=
  (splitOnCharList '.' s.data).map String.mk

/-- Parse a non-empty all-digit string, as Python `int(s)` does. -/
def digitsToNat (cs : List Char) : Nat :=
  cs.foldl (fun acc c => acc * 10 + (c.toNat - 48)) 0

/-- Python structural value equality (`==`): `True == 1`, dict comparison is
order-insensitive, lists compare element-wise. -/
def pyEq : J → J → Bool
  | .null, .null => true
  | .bool a, .bool b => a = b
  | .bool a, .int b => (if a then (1 : Int) else 0) = b
  | .int a, .bool b => a = (if b then (1 : Int) else 0)
  | .int a, .int b => a = b
  | .str a, .str b => a = b
  | .arr xs, .arr ys =>
    xs.length = ys.length &&
      (xs.zip ys).attach.all (fun p => pyEq p.1.1 p.1.2)
  | .obj xs, .obj ys =>
    xs.length = ys.length &&
      xs.attach.all (fun kv =>
        match jlookup ys kv.1.1 with
        | some w => pyEq kv.1.2 w
        | none => false)
  | _, _ => false
termination_by a _ => sizeOf a
decreasing_by
  · have h := List.of_mem_zip p.2
    have h1 : sizeOf p.1.1 < sizeOf xs := List.sizeOf_lt_of_mem h.1
    simp only [J.arr.sizeOf_spec]
    omega
  · have h1 : sizeOf kv.1 < sizeOf xs := List.sizeOf_lt_of_mem kv.2
    have h2 : sizeOf kv.1.2 ≤ sizeOf kv.1 := by
      cases kv.1 with
      | mk a b => simp
    simp only [J.obj.sizeOf_spec]
    omega

/-! ## Canonical JSON (`src/trace.py`, `canonical_json`)

`json.dumps(obj, sort_keys=True, separators=(",", ":"), ensure_ascii=False,
allow_nan=False)`: keys sorted by code point, no whitespace, minimal string
escapes, non-ASCII kept literal.  Sorting the rendered key/value pairs by key
is the same as sorting the pairs first, because the sort key is the key alone.
-/

/-- Two lowercase hex digits of a byte. -/
def hexDigit (n : Nat) : Char :=
  if n < 10 then Char.ofNat (48 + n) else Char.ofNat (87 + n)

/-- JSON escape of one character, as CPython's `json` module emits it with
`ensure_ascii=False`. -/
def escapeChar (c : Char) : String :=
  if c = '"' then "\\\""
  else if c = '\\' then "\\\\"
  else if c = '\n' then "\\n"
  else if c = '\r' then "\\r"
  else if c = '\t' then "\\t"
  else if c.toNat = 8 then "\\b"
  else if c.toNat = 12 then "\\f"
  else if c.toNat < 32 then
    String.mk ['\\', 'u', '0', '0', hexDigit (c.toNat / 16), hexDigit (c.toNat % 16)]
  else String.singleton c

/-- JSON string literal rendering. -/
def renderStr (s : String) : String :=
  "\"" ++ String.join (s.data.map escapeChar) ++ "\""

/-- Sort rendered object entries by key (code-point order, as Python
`sorted` on `str`). -/
def sortByKey (kvs : List (String × String)) : List (String × String) :=
  kvs.mergeSort (fun a b => a.1 ≤ b.1)

/-- Canonical JSON per json-c14n-v1. -/
def canonical_json : J → String
  | .null => "null"
  | .bool b => if b then "true" else "false"
  | .int n => toString n
  | .str s => renderStr s
  | .arr xs =>
    "[" ++ String.intercalate "," (xs.attach.map (fun x => canonical_json x.1)) ++ "]"
  | .obj kvs =>
    "\x7b" ++
      String.intercalate ","
        ((sortByKey (kvs.attach.map (fun kv => (kv.1.1, canonical_json kv.1.2)))).map
          (fun kv => renderStr kv.1 ++ ":" ++ kv.2)) ++
      "\x7d"
termination_by v => sizeOf v
decreasing_by
  · have h1 : sizeOf x.1 < sizeOf xs := List.sizeOf_lt_of_mem x.2
    simp only [J.arr.sizeOf_spec]
    omega
  · have h1 : sizeOf kv.1 < sizeOf kvs := List.sizeOf_lt_of_mem kv.2
    have h2 : sizeOf kv.1.2 ≤ sizeOf kv.1 := by
      cases kv.1 with
      | mk a b => simp
    simp only [J.obj.sizeOf_spec]
    omega

/-- UTF-8 bytes of one character. -/
def utf8Char (c : Char) : List Nat :=
  let n := c.toNat
  if n < 128 then [n]
  else if n < 2048 then [192 + n / 64, 128 + n % 64]
  else if n < 65536 then [224 + n / 4096, 128 + n / 64 % 64, 128 + n % 64]
  else [240 + n / 262144, 128 + n / 4096 % 64, 128 + n / 64 % 64, 128 + n % 64]

/-- `s.encode("utf-8")` as a byte list. -/
def utf8Bytes (s : String) : List Nat :=
  (s.data.map utf8Char).flatten

/-! ## SHA-256 (`hashlib.sha256`, FIPS 180-4), over `Nat` bytes -/

/-- Truncate to 32 bits. -/
def w32 (n : Nat) : Nat := n % 4294967296

/-- 32-bit right rotation. -/
def rotr32 (k n : Nat) : Nat := w32 ((n >>> k) ||| (n <<< (32 - k)))

def shaCh (x y z : Nat) : Nat := (x &&& y) ^^^ ((x ^^^ 4294967295) &&& z)

def shaMaj (x y z : Nat) : Nat := (x &&& y) ^^^ (x &&& z) ^^^ (y &&& z)

def shaS0 (x : Nat) : Nat := rotr32 2 x ^^^ rotr32 13 x ^^^ rotr32 22 x

def shaS1 (x : Nat) : Nat := rotr32 6 x ^^^ rotr32 11 x ^^^ rotr32 25 x

def shas0 (x : Nat) : Nat := rotr32 7 x ^^^ rotr32 18 x ^^^ (x >>> 3)

def shas1 (x : Nat) : Nat := rotr32 17 x ^^^ rotr32 19 x ^^^ (x >>> 10)

/-- SHA-256 round constants. -/
def shaK : List Nat :=
  [1116352408, 1899447441, 3049323471, 3921009573, 961987163, 1508970993, 2453635748, 2870763221,
   3624381080, 310598401, 607225278, 1426881987, 1925078388, 2162078206, 2614888103, 3248222580,
   3835390401, 4022224774, 264347078, 604807628, 770255983, 1249150122, 1555081692, 1996064986,
   2554220882, 2821834349, 2952996808, 3210313671, 3336571891, 3584528711, 113926993, 338241895,
   666307205, 773529912, 1294757372, 1396182291, 1695183700, 1986661051, 2177026350, 2456956037,
   2730485921, 2820302411, 3259730800, 3345764771, 3516065817, 3600352804, 4094571909, 275423344,
   430227734, 506948616, 659060556, 883997877, 958139571, 1322822218, 1537002063, 1747873779,
   1955562222, 2024104815, 2227730452, 2361852424, 2428436474, 2756734187, 3204031479, 3329325298]

/-- SHA-256 initial hash values. -/
def shaH0 : List Nat :=
  [1779033703, 3144134277, 1013904242, 2773480762, 1359893119, 2600822924, 528734635, 1541459225]

/-- Big-endian 8-byte encoding. -/
def be64 (n : Nat) : List Nat :=
  [n >>> 56 % 256, n >>> 48 % 256, n >>> 40 % 256, n >>> 32 % 256,
   n >>> 24 % 256, n >>> 16 % 256, n >>> 8 % 256, n % 256]

/-- Split a list into chunks of `m + 1` elements. -/
def chunksSucc (m : Nat) : List α → List (List α)
  | [] => []
  | x :: xs => ((x :: xs).take (m + 1)) :: chunksSucc m ((x :: xs).drop (m + 1))
termination_by l => l.length
decreasing_by
  simp only [List.drop_succ_cons, List.length_cons, List.length_drop]
  omega

/-- SHA-256 message padding. -/
def shaPad (msg : List Nat) : List Nat :=
  let l := msg.length
  msg ++ [128] ++ List.replicate ((64 + 55 - l % 64) % 64) 0 ++ be64 (8 * l)

/-- A big-endian 32-bit word from four bytes. -/
def beWord : List Nat → Nat
  | [b0, b1, b2, b3] => b0 * 16777216 + b1 * 65536 + b2 * 256 + b3
  | _ => 0

/-- Extend the 16 block words to 64 schedule words; `acc` is kept reversed. -/
def shaExtend : Nat → List Nat → List Nat
  | 0, acc => acc.reverse
  | k + 1, acc =>
    let wt := w32 (shas1 (acc.getD 1 0) + acc.getD 6 0 + shas0 (acc.getD 14 0) + acc.getD 15 0)
    shaExtend k (wt :: acc)

/-- One compression round. -/
def shaRound (st : Nat × Nat × Nat × Nat × Nat × Nat × Nat × Nat) (kw : Nat × Nat) :
    Nat × Nat × Nat × Nat × Nat × Nat × Nat × Nat :=
  match st, kw with
  | (a, b, c, d, e, f, g, h), (k, w) =>
    let t1 := w32 (h + shaS1 e + shaCh e f g + k + w)
    let t2 := w32 (shaS0 a + shaMaj a b c)
    (w32 (t1 + t2), a, b, c, w32 (d + t1), e, f, g)

/-- Process one 64-byte block. -/
def shaBlock (hs : List Nat) (block : List Nat) : List Nat :=
  let ws := shaExtend 48 ((chunksSucc 3 block).map beWord).reverse
  match hs with
  | [h0, h1, h2, h3, h4, h5, h6, h7] =>
    match (shaK.zip ws).foldl shaRound (h0, h1, h2, h3, h4, h5, h6, h7) with
    | (a, b, c, d, e, f, g, h) =>
      [w32 (h0 + a), w32 (h1 + b), w32 (h2 + c), w32 (h3 + d),
       w32 (h4 + e), w32 (h5 + f), w32 (h6 + g), w32 (h7 + h)]
  | _ => hs

/-- Lowercase 8-hex-digit rendering of a 32-bit word. -/
def hex8 (n : Nat) : List Char :=
  [hexDigit (n >>> 28 % 16), hexDigit (n >>> 24 % 16), hexDigit (n >>> 20 % 16),
   hexDigit (n >>> 16 % 16), hexDigit (n >>> 12 % 16), hexDigit (n >>> 8 % 16),
   hexDigit (n >>> 4 % 16), hexDigit (n % 16)]

/-- `hashlib.sha256(data).hexdigest()`. -/
def sha256_hex (data : List Nat) : String :=
  String.mk (((chunksSucc 63 (shaPad data)).foldl shaBlock shaH0).map hex8).flatten

/-! ## Hashing of JSON values (`src/trace.py`) -/

/-- `hash_json(obj)`: hex SHA-256 of the canonical JSON bytes. -/
def hash_json (obj : J) : String :=
  sha256_hex (utf8Bytes (canonical_json obj))

/-- A trace record (a Python dict). -/
abbrev Rec := Dict

/-- `_record_without_hash`: the record with the `record_hash` key dropped. -/
def record_without_hash (record : Rec) : Rec :=
  jerase record "record_hash"

/-- `compute_record_hash(record)`. -/
def compute_record_hash (record : Rec) : String :=
  hash_json (.obj (record_without_hash record))

/-- `create_trace_header` (src/trace.py): the header dict, with
`record_hash` filled last. -/
def create_trace_header (version trace_id created_at engine_version : String)
    (problem_spec initial_state : J)
    (hash_algorithm : String := "sha256")
    (canonicalization : String := "json-c14n-v1") : Rec :=
  let record : Rec :=
    [("type", .str "header"),
     ("version", .str version),
     ("trace_id", .str trace_id),
     ("created_at", .str created_at),
     ("engine_version", .str engine_version),
     ("hash_algorithm", .str hash_algorithm),
     ("canonicalization", .str canonicalization),
     ("problem_spec_hash", .str (hash_json problem_spec)),
     ("initial_state_hash", .str (hash_json initial_state))]
  jsetKey record "record_hash" (.str (compute_record_hash record))

/-- `create_trace_step` (src/trace.py).  The `step_index` argument is the
value the engine read out of the state dict. -/
def create_trace_step (index : Nat) (step_index : J) (result : Rec)
    (state_before state_after : Rec) (prev_hash : String) : Rec :=
  let record : Rec :=
    [("type", .str "step"),
     ("index", .int index),
     ("step_index", step_index),
     ("result", .obj result),
     ("state_before_hash", .str (hash_json (.obj state_before))),
     ("state_after_hash", .str (hash_json (.obj state_after))),
     ("prev_hash", .str prev_hash)]
  jsetKey record "record_hash" (.str (compute_record_hash record))

/-- Modelled from the spec: `create_trace_control` is imported by
`src/engine.py` from `src/trace.py` and exercised by `tests/test_trace.py`,
but its definition is not under `src/`.  Per spec section 3, a control
record is
`(type:"control", index, control_type:"loop", action, loop_iteration,
start_step, end_step, stop_path, stop_operator, stop_value, state_hash,
prev_hash, record_hash)`, and per section 4.7 the constructor captures the
fields and fills `record_hash` last, computed over the record with that
field absent. -/
def create_trace_control (index : Nat) (control_type action : String)
    (loop_iteration : Int) (start_step end_step stop_path stop_operator : String)
    (stop_value : J) (state : Rec) (prev_hash : String) : Rec :=
  let record : Rec :=
    [("type", .str "control"),
     ("index", .int index),
     ("control_type", .str control_type),
     ("action", .str action),
     ("loop_iteration", .int loop_iteration),
     ("start_step", .str start_step),
     ("end_step", .str end_step),
     ("stop_path", .str stop_path),
     ("stop_operator", .str stop_operator),
     ("stop_value", stop_value),
     ("state_hash", .str (hash_json (.obj state))),
     ("prev_hash", .str prev_hash)]
  jsetKey record "record_hash" (.str (compute_record_hash record))

/-! ## Small Python-semantics helpers shared by the modules -/

/-- Python `x is None`. -/
def jIsNull : J → Bool
  | .null => true
  | _ => false

/-- Python `x if jtruthy x else y` (the `or` operator on values). -/
def pyOr (x y : J) : J :=
  if jtruthy x then x else y

/-- Python `dict(x or {})`: `{}` when `x` is falsy, the fields when `x` is a
dict, and a TypeError otherwise. -/
def pyDictOr (v : J) : Except String Dict :=
  if jtruthy v then
    match v with
    | .obj kvs => .ok kvs
    | _ => .error "TypeError: cannot convert value to dict"
  else .ok []

/-- Python `(x or {}).get(k)`: a TypeError when `x` is truthy but not a dict. -/
def pyGetFrom (v : J) (k : String) : Except String J :=
  if jtruthy v then
    match v with
    | .obj kvs => .ok (getOr kvs k)
    | _ => .error "AttributeError: value has no attribute get"
  else .ok .null

/-- Python `(x or {}).get(k, d)`. -/
def pyGetDefaultFrom (v : J) (k : String) (d : J) : Except String J :=
  if jtruthy v then
    match v with
    | .obj kvs => .ok (getDefault kvs k d)
    | _ => .error "AttributeError: value has no attribute get"
  else .ok d

/-- Python `str(x)` for the scalar values the engine passes through it
(`str(problem_spec.get("id"))` after validation, and f-string payloads);
containers never reach `str()` in the modelled flows. -/
def pyStr : J → String
  | .null => "None"
  | .bool b => if b then "True" else "False"
  | .int n => toString n
  | .str s => s
  | .arr _ => "<list>"
  | .obj _ => "<dict>"

/-- Python `s.startswith(pre)`. -/
def pyStartsWith (s pre : String) : Bool :=
  pre.data.isPrefixOf s.data

/-- Python `sorted` on strings (code-point order). -/
def sortStrings (xs : List String) : List String :=
  xs.mergeSort (fun a b => a ≤ b)

/-! ## Invariants (`src/invariants.py`) -/

/-- `validate_state` (src/invariants.py).  The status-enumeration error
message elides the interpolated list of allowed values. -/
def validate_state (state : Dict) : Except String Unit := do
  if !(jlookup state "step_index").isSome then
    throw "ReasoningState.step_index is required"
  let step_index := getOr state "step_index"
  if !(pyIsInt step_index) || pyToInt step_index < 0 then
    throw "ReasoningState.step_index must be a non-negative integer"
  if !(jlookup state "status").isSome then
    throw "ReasoningState.status is required"
  let status := getOr state "status"
  if !(jIsStr status "pending" || jIsStr status "running" ||
       jIsStr status "failed" || jIsStr status "completed") then
    throw "ReasoningState.status must be one of the allowed statuses"
  let artifacts := getOr state "artifacts"
  if !(jIsNull artifacts) && !(artifacts matches .obj _) then
    throw "ReasoningState.artifacts must be an object when provided"
  let metadata := getOr state "metadata"
  if !(jIsNull metadata) && !(metadata matches .obj _) then
    throw "ReasoningState.metadata must be an object when provided"

/-- `validate_step_result` (src/invariants.py); the missing-fields error
message elides the interpolated field list. -/
def validate_step_result (result : Dict) : Except String Unit := do
  let required := ["version", "step", "status", "input_hash", "output_hash",
                   "started_at", "finished_at"]
  if required.any (fun key => !(jlookup result key).isSome) then
    throw "StepResult missing required fields"
  let status := getOr result "status"
  if !(jIsStr status "success" || jIsStr status "failed" || jIsStr status "skipped") then
    throw "StepResult.status must be one of the allowed statuses"
  let has_output := (jlookup result "output").isSome
  let has_errors := (jlookup result "errors").isSome
  if jIsStr status "success" && !has_output then
    throw "StepResult.success requires output"
  if jIsStr status "failed" && !has_errors then
    throw "StepResult.failed requires errors"
  if jIsStr status "skipped" && (has_output || has_errors) then
    throw "StepResult.skipped must not include output or errors"

/-! ## Validation (`src/validation.py`) -/

/-- `^\d+\.\d+\.\d+$` (ASCII digits). -/
def isSemver (s : String) : Bool :=
  match splitOnCharList '.' s.data with
  | [a, b, c] =>
    !a.isEmpty && a.all Char.isDigit && !b.isEmpty && b.all Char.isDigit &&
      !c.isEmpty && c.all Char.isDigit
  | _ => false

/-- `^\d{4}-\d{2}-\d{2}T\d{2}:\d{2}:\d{2}Z$`. -/
def isIsoUtc (s : String) : Bool :=
  match s.data with
  | [y1, y2, y3, y4, d1, m1, m2, d2, dd1, dd2, t, h1, h2, c1, n1, n2, c2, s1, s2, z] =>
    [y1, y2, y3, y4, m1, m2, dd1, dd2, h1, h2, n1, n2, s1, s2].all Char.isDigit &&
      d1 = '-' && d2 = '-' && t = 'T' && c1 = ':' && c2 = ':' && z = 'Z'
  | _ => false

/-- `validate_semver` (src/validation.py). -/
def validate_semver (value : J) (field : String) : Except String Unit :=
  match value with
  | .str s =>
    if isSemver s then .ok ()
    else .error (field ++ " must be a semantic version (MAJOR.MINOR.PATCH)")
  | _ => .error (field ++ " must be a semantic version (MAJOR.MINOR.PATCH)")

/-- `validate_iso8601_utc` (src/validation.py). -/
def validate_iso8601_utc (value : J) (field : String) : Except String Unit :=
  match value with
  | .str s =>
    if isIsoUtc s then .ok ()
    else .error (field ++ " must be an ISO-8601 UTC timestamp ending with Z")
  | _ => .error (field ++ " must be an ISO-8601 UTC timestamp ending with Z")

/-- `validate_non_empty_str` (src/validation.py). -/
def validate_non_empty_str (value : J) (field : String) : Except String Unit :=
  match value with
  | .str s => if pyStrip s = "" then .error (field ++ " must be a non-empty string") else .ok ()
  | _ => .error (field ++ " must be a non-empty string")

/-- `validate_optional_str_list` (src/validation.py). -/
def validate_optional_str_list (value : J) (field : String) : Except String Unit :=
  match value with
  | .null => .ok ()
  | .arr items =>
    if items.all (fun item =>
        match item with
        | .str s => pyStrip s ≠ ""
        | _ => false) then .ok ()
    else .error (field ++ " must contain non-empty strings")
  | _ => .error (field ++ " must be a list of strings")

/-! ## Looping (`src/looping.py`) -/

structure LoopConfig where
  start_step : String
  end_step : String
  max_iterations : Int
  stop_path : String
  stop_operator : String
  stop_value : J

structure LoopBounds where
  start_index : Nat
  end_index : Nat

/-- `LoopBounds.segment_length`. -/
def LoopBounds.segment_length (b : LoopBounds) : Nat :=
  b.end_index - b.start_index + 1

/-- `_require_non_empty_str` (src/looping.py). -/
def require_non_empty_str (value : J) (field : String) : Except String String :=
  match value with
  | .str s => if pyStrip s = "" then .error (field ++ " must be a non-empty string") else .ok s
  | _ => .error (field ++ " must be a non-empty string")

/-- The part of `parse_loop_config` (src/looping.py) after the `enabled`
check: parse the loop fields out of `settings.loop`.  The
operator-enumeration error message elides the interpolated operator
list. -/
def parse_loop_tail (loopD : Dict) : Except String (Option LoopConfig) := do
  let start_step ← require_non_empty_str (getOr loopD "start_step")
    "problem_spec.settings.loop.start_step"
  let end_step ← require_non_empty_str (getOr loopD "end_step")
    "problem_spec.settings.loop.end_step"
  let max_iterations := getOr loopD "max_iterations"
  if !(pyIsInt max_iterations) || pyToInt max_iterations ≤ 0 then
    throw "problem_spec.settings.loop.max_iterations must be > 0"
  let stop_condition := getOr loopD "stop_condition"
  let scD ←
    match stop_condition with
    | .obj kvs => pure kvs
    | _ => throw "problem_spec.settings.loop.stop_condition must be an object"
  let stop_path ← require_non_empty_str (getOr scD "path")
    "problem_spec.settings.loop.stop_condition.path"
  if !(pyStartsWith stop_path "artifacts.") then
    throw "problem_spec.settings.loop.stop_condition.path must start with artifacts."
  let has_equals := (jlookup scD "equals").isSome
  let has_operator := (jlookup scD "operator").isSome
  let has_value := (jlookup scD "value").isSome
  if has_equals && (has_operator || has_value) then
    throw "problem_spec.settings.loop.stop_condition must use either equals or operator/value"
  let (stop_operator, stop_value) ←
    if has_equals then
      pure ("equals", getOr scD "equals")
    else do
      let op ← require_non_empty_str (getOr scD "operator")
        "problem_spec.settings.loop.stop_condition.operator"
      if !(op = "equals" || op = "not_equals" || op = "gt" || op = "gte" ||
           op = "lt" || op = "lte") then
        throw "problem_spec.settings.loop.stop_condition.operator must be one of the allowed operators"
      pure (op, getOr scD "value")
  if stop_operator = "gt" || stop_operator = "gte" || stop_operator = "lt" ||
      stop_operator = "lte" then
    if !(stop_value matches .int _) then
      throw "problem_spec.settings.loop.stop_condition.value must be an integer for comparison operators"
  else
    if !(stop_value matches .str _) && !(pyIsInt stop_value) then
      throw "problem_spec.settings.loop.stop_condition.value must be a string, integer, or boolean"
  return some
    { start_step := start_step, end_step := end_step,
      max_iterations := pyToInt max_iterations,
      stop_path := stop_path, stop_operator := stop_operator, stop_value := stop_value }

/-- `parse_loop_config` (src/looping.py): settings/loop extraction and the
`enabled` check, then the field parsing in `parse_loop_tail`. -/
def parse_loop_config (problem_spec : Dict) : Except String (Option LoopConfig) := do
  let settings := getOr problem_spec "settings"
  if jIsNull settings then return none
  let settingsD ←
    match settings with
    | .obj kvs => pure kvs
    | _ => throw "problem_spec.settings must be an object"
  let loop_settings := getOr settingsD "loop"
  if jIsNull loop_settings then return none
  let loopD ←
    match loop_settings with
    | .obj kvs => pure kvs
    | _ => throw "problem_spec.settings.loop must be an object"
  let enabled := getDefault loopD "enabled" (.bool true)
  let enabledB ←
    match enabled with
    | .bool b => pure b
    | _ => throw "problem_spec.settings.loop.enabled must be a boolean"
  if !enabledB then return none
  parse_loop_tail loopD

/-- `resolve_loop_bounds` (src/looping.py); the not-found messages elide the
quoted step name. -/
def resolve_loop_bounds (steps : List String) (config : LoopConfig) :
    Except String LoopBounds := do
  let start_index ←
    match steps.findIdx? (fun s => s = config.start_step) with
    | some i => pure i
    | none => throw "loop start_step not found in steps"
  let end_index ←
    match steps.findIdx? (fun s => s = config.end_step) with
    | some i => pure i
    | none => throw "loop end_step not found in steps"
  if start_index > end_index then
    throw "loop start_step must appear before end_step"
  return { start_index := start_index, end_index := end_index }

/-- The loop of `resolve_path` (src/looping.py): walk the remaining
segments, descending only into mappings, with an early `None` return. -/
def resolveSegsCode : List String → J → J
  | [], current => current
  | segment :: rest, current =>
    match current with
    | .obj kvs =>
      match jlookup kvs segment with
      | some v => resolveSegsCode rest v
      | none => .null
    | _ => .null

/-- `resolve_path` (src/looping.py). -/
def resolve_path (payload : Dict) (path : String) : J :=
  resolveSegsCode (splitDots path) (.obj payload)

/-- `stop_condition_met` (src/looping.py).  The comparison branches read an
integer out of `stop_value`; `parse_loop_config` guarantees it is a
non-boolean integer for the comparison operators, so the fallback is
unreachable there. -/
def stop_condition_met (state : Dict) (config : LoopConfig) : Bool :=
  let value := resolve_path state config.stop_path
  if jIsNull value then false
  else
    let operator := config.stop_operator
    let target := config.stop_value
    if operator = "equals" then pyEq value target
    else if operator = "not_equals" then !(pyEq value target)
    else if operator = "gt" then
      match value, target with
      | .int n, .int t => n > t
      | _, _ => false
    else if operator = "gte" then
      match value, target with
      | .int n, .int t => n ≥ t
      | _, _ => false
    else if operator = "lt" then
      match value, target with
      | .int n, .int t => n < t
      | _, _ => false
    else if operator = "lte" then
      match value, target with
      | .int n, .int t => n ≤ t
      | _, _ => false
    else false

/-! ## Routing (`src/routing.py`) -/

/-- The built-in `default` policy's ordered step list. -/
def DEFAULT_POLICY_STEPS : List String :=
  ["Normalize", "Decompose", "AcquireEvidence", "Compute", "Verify", "Synthesize", "Audit"]

/-- `select_policy_name` (src/routing.py). -/
def select_policy_name (problem_spec : Dict) (fallback : String := "default") : String :=
  match getOr problem_spec "settings" with
  | .obj settings =>
    match jlookup settings "policy_profile" with
    | some (.str v) => if v ≠ "" then v else fallback
    | _ => fallback
  | _ => fallback

/-- `resolve_steps` (src/routing.py) against `default_registry()`, whose
only registered policy is `default`; an unknown name raises KeyError (the
message elides the quoted name). -/
def resolve_steps (problem_spec : Dict) : Except String (List String) :=
  let policy_name := select_policy_name problem_spec
  if policy_name = "default" then .ok DEFAULT_POLICY_STEPS
  else .error "Unknown policy"

/-- `ensure_steps_known` (src/routing.py); the message elides the
interpolated unknown-step list. -/
def ensure_steps_known (steps known_steps : List String) : Except String Unit :=
  if steps.any (fun step => !known_steps.contains step) then
    .error "Unknown steps in policy"
  else .ok ()

/-! ## Execution graph (`src/execution.py`) -/

/-- `validate_unique_steps` (src/execution.py); the message elides the
interpolated duplicate list. -/
def validate_unique_steps (steps : List String) : Except String Unit :=
  if steps.any (fun step => 1 < steps.count step) then
    .error "Duplicate steps in execution graph"
  else .ok ()

/-- `build_linear_graph` (src/execution.py); only the emptiness check is
relevant to the engine, which discards the graph value. -/
def build_linear_graph (steps : List String) : Except String (List String) :=
  if steps.isEmpty then .error "steps cannot be empty" else .ok steps

/-! ## `validate_problem_spec` (src/validation.py)

The argument type already enforces the leading `isinstance(problem_spec,
Mapping)` check. -/

/-- One entry of `settings.verification_paths` as `validate_problem_spec`
checks it. -/
def validVerificationPathEntry (entry : J) : Except String Unit := do
  match entry with
  | .obj kvs =>
    let name := getOr kvs "name"
    match name with
    | .str s =>
      if pyStrip s = "" then
        throw "problem_spec.settings.verification_paths.name must be a non-empty string"
    | _ => throw "problem_spec.settings.verification_paths.name must be a non-empty string"
    let evidence_required := getOr kvs "evidence_required"
    if !(jIsNull evidence_required) && !(evidence_required matches .bool _) then
      throw "problem_spec.settings.verification_paths.evidence_required must be a boolean"
  | _ => throw "problem_spec.settings.verification_paths items must be objects"

/-- `validate_problem_spec` (src/validation.py). -/
def validate_problem_spec (problem_spec : Dict) : Except String Unit := do
  let version := getOr problem_spec "version"
  validate_semver version "problem_spec.version"
  -- `int(str(version).split(".")[0])`: after `validate_semver`, `version`
  -- is a string whose first dot-segment is a non-empty digit run.
  let major := digitsToNat (((splitOnCharList '.' (pyStr version).data).headD []))
  if major ≠ 1 then throw "problem_spec.version major must be 1"
  validate_non_empty_str (getOr problem_spec "id") "problem_spec.id"
  validate_iso8601_utc (getOr problem_spec "created_at") "problem_spec.created_at"
  let inputs ←
    match getOr problem_spec "inputs" with
    | .obj kvs => pure kvs
    | _ => throw "problem_spec.inputs must be an object"
  validate_non_empty_str (getOr inputs "prompt") "problem_spec.inputs.prompt"
  validate_optional_str_list (getOr inputs "constraints") "problem_spec.inputs.constraints"
  validate_optional_str_list (getOr inputs "goals") "problem_spec.inputs.goals"
  let context := getOr inputs "context"
  if !(jIsNull context) && !(context matches .obj _) then
    throw "problem_spec.inputs.context must be an object"
  let settings := getOr problem_spec "settings"
  if !(jIsNull settings) then do
    let settingsD ←
      match settings with
      | .obj kvs => pure kvs
      | _ => throw "problem_spec.settings must be an object"
    let evidence_required := getOr settingsD "evidence_required"
    if !(jIsNull evidence_required) && !(evidence_required matches .bool _) then
      throw "problem_spec.settings.evidence_required must be a boolean"
    let max_steps := getOr settingsD "max_steps"
    if !(jIsNull max_steps) then
      if !(pyIsInt max_steps) || pyToInt max_steps ≤ 0 then
        throw "problem_spec.settings.max_steps must be > 0"
    let policy_profile := getOr settingsD "policy_profile"
    if !(jIsNull policy_profile) then
      match policy_profile with
      | .str s =>
        if pyStrip s = "" then
          throw "problem_spec.settings.policy_profile must be a non-empty string"
      | _ => throw "problem_spec.settings.policy_profile must be a non-empty string"
    let model_profile := getOr settingsD "model_profile"
    if !(jIsNull model_profile) then
      match model_profile with
      | .str s =>
        if pyStrip s = "" then
          throw "problem_spec.settings.model_profile must be a non-empty string"
      | _ => throw "problem_spec.settings.model_profile must be a non-empty string"
    let verification_paths := getOr settingsD "verification_paths"
    if !(jIsNull verification_paths) then do
      let entries ←
        match verification_paths with
        | .arr xs => pure xs
        | _ => throw "problem_spec.settings.verification_paths must be a list"
      entries.forM validVerificationPathEntry
    discard <| parse_loop_config problem_spec
  let provenance := getOr problem_spec "provenance"
  if !(jIsNull provenance) && !(provenance matches .obj _) then
    throw "problem_spec.provenance must be an object"

/-! ## Orchestration (`src/orchestration.py`) -/

/-- Keys of `_STEP_HANDLERS`, identical in src/orchestration.py and
src/engine.py. -/
def KNOWN_STEPS : List String :=
  ["Normalize", "Decompose", "AcquireEvidence", "Compute", "Verify", "Synthesize", "Audit"]

structure OrchestrationPlan where
  framework : J
  steps : List String

/-- `build_orchestration_plan` (src/orchestration.py). -/
def build_orchestration_plan (problem_spec : Dict) : Except String OrchestrationPlan := do
  validate_problem_spec problem_spec
  let settings :=
    match getOr problem_spec "settings" with
    | .obj kvs => kvs
    | _ => []
  let framework := pyOr (getOr settings "orchestration_framework") (.str "native")
  if !(jIsStr framework "native" || jIsStr framework "langgraph") then
    throw "problem_spec.settings.orchestration_framework must be native or langgraph"
  let steps ← resolve_steps problem_spec
  ensure_steps_known steps KNOWN_STEPS
  validate_unique_steps steps
  discard <| build_linear_graph steps
  return { framework := framework, steps := steps }

/-- `compile_langgraph_plan` (src/orchestration.py).  The external
`langgraph` package is not part of this repository; as in an environment
without it installed, the import fails and the RuntimeError is raised. -/
def compile_langgraph_plan (_steps : List String) : Except String Unit :=
  .error "langgraph is required for LangGraph orchestration. Install langgraph first."

/-! ## Step handlers (`src/steps.py`) -/

/-- `_now_required` (src/steps.py): `not now` rejects both `None` and the
empty string. -/
def now_required (now : Option String) : Except String String :=
  match now with
  | some s =>
    if s = "" then .error "now timestamp is required for deterministic steps" else .ok s
  | none => .error "now timestamp is required for deterministic steps"

/-- `_step_result` (src/steps.py). -/
def step_result (step status started_at finished_at : String)
    (input_payload : Dict) (output_payload : Option Dict := none)
    (errors : Option (List J) := none) : Rec :=
  let result : Rec :=
    [("version", .str "1.0.0"),
     ("step", .str step),
     ("status", .str status),
     ("input_hash", .str (hash_json (.obj input_payload))),
     ("output_hash", .str (hash_json (.obj (output_payload.getD [])))),
     ("started_at", .str started_at),
     ("finished_at", .str finished_at)]
  let result :=
    if status = "success" then jsetKey result "output" (.obj (output_payload.getD []))
    else result
  if status = "failed" then jsetKey result "errors" (.arr (errors.getD []))
  else result

/-- `_WHITESPACE_RE.sub(" ", ...)`: collapse every whitespace run to one
space; `prevSpace` records whether the previous character was part of a
run already replaced. -/
def collapseWsAux (prevSpace : Bool) : List Char → List Char
  | [] => []
  | c :: rest =>
    if pyIsSpace c then
      if prevSpace then collapseWsAux true rest
      else ' ' :: collapseWsAux true rest
    else c :: collapseWsAux false rest

/-- `_WHITESPACE_RE.sub(" ", prompt).strip()`. -/
def normalizePrompt (prompt : String) : String :=
  pyStrip (String.mk (collapseWsAux false prompt.data))

/-- `_advance_state` (src/steps.py).  The two `dict(... or {})` coercions
cannot fail after `validate_state`, but are modelled faithfully. -/
def advance_state (state : Dict) (now : String) (artifact_key : String)
    (artifact_value : J) : Except String Dict := do
  let next_state := state
  let next_state := jsetKey next_state "step_index"
    (.int (pyToInt (getDefault next_state "step_index" (.int 0)) + 1))
  let next_state := jsetKey next_state "status" (.str "running")
  let artifacts ← pyDictOr (getOr next_state "artifacts")
  let next_state := jsetKey next_state "artifacts" (.obj (jsetKey artifacts artifact_key artifact_value))
  let metadata ← pyDictOr (getOr next_state "metadata")
  let next_state := jsetKey next_state "metadata" (.obj (jsetKey metadata "updated_at" (.str now)))
  return next_state

/-- `normalize` (src/steps.py). -/
def normalize (state : Dict) (now : Option String) : Except String (Dict × Rec) := do
  validate_state state
  let started_at ← now_required now
  let finished_at := started_at
  let problem ← pyDictOr (getOr state "problem")
  let inputs ← pyDictOr (getOr problem "inputs")
  let prompt := getOr inputs "prompt"
  let promptStr? : Option String :=
    match prompt with
    | .str s => if pyStrip s = "" then none else some s
    | _ => none
  match promptStr? with
  | none =>
    let result := step_result "Normalize" "failed" started_at finished_at
      [("prompt", prompt)] (some [])
      (some [.obj [("code", .str "invalid_prompt"), ("message", .str "prompt is required")]])
    validate_step_result result
    let next_state := state
    validate_state next_state
    return (next_state, result)
  | some s =>
    let normalized_prompt := normalizePrompt s
    let output : Dict := [("normalized_prompt", .str normalized_prompt)]
    let next_state ← advance_state state finished_at "normalized" (.obj output)
    let result := step_result "Normalize" "success" started_at finished_at
      [("prompt", prompt)] (some output)
    validate_step_result result
    validate_state next_state
    return (next_state, result)

/-- `decompose` (src/steps.py). -/
def decompose (state : Dict) (now : Option String) : Except String (Dict × Rec) := do
  validate_state state
  let started_at ← now_required now
  let finished_at := started_at
  let problem ← pyDictOr (getOr state "problem")
  let inputs ← pyDictOr (getOr problem "inputs")
  let goals : List J :=
    match getOr inputs "goals" with
    | .arr xs => xs
    | _ => []
  let normalized0 ← pyGetFrom (getOr state "artifacts") "normalized"
  let base_prompt ← do
    let bp0 ← pyGetFrom (pyOr normalized0 (.obj [])) "normalized_prompt"
    pure (pyOr bp0 (getOr inputs "prompt"))
  let tasks := goals.filter (fun goal =>
    match goal with
    | .str s => pyStrip s ≠ ""
    | _ => false)
  let tasks :=
    if tasks.isEmpty then
      match base_prompt with
      | .str s => if pyStrip s ≠ "" then [base_prompt] else [.str "unspecified task"]
      | _ => [.str "unspecified task"]
    else tasks
  let output : Dict := [("tasks", .arr tasks)]
  let next_state ← advance_state state finished_at "decomposition" (.obj output)
  let result := step_result "Decompose" "success" started_at finished_at
    [("goals", .arr goals), ("prompt", base_prompt)] (some output)
  validate_step_result result
  validate_state next_state
  return (next_state, result)

/-- `acquire_evidence` (src/steps.py). -/
def acquire_evidence (state : Dict) (now : Option String) : Except String (Dict × Rec) := do
  validate_state state
  let started_at ← now_required now
  let finished_at := started_at
  let problem ← pyDictOr (getOr state "problem")
  let inputs ← pyDictOr (getOr problem "inputs")
  let settings : Dict :=
    match getOr problem "settings" with
    | .obj kvs => kvs
    | _ => []
  let context : Dict :=
    match getOr inputs "context" with
    | .obj kvs => kvs
    | _ => []
  let evidence := getOr context "evidence"
  let evidence_list : List J :=
    match evidence with
    | .arr xs => xs
    | _ => []
  let output : Dict :=
    [("evidence", .arr evidence_list),
     ("evidence_required", .bool (jtruthy (getDefault settings "evidence_required" (.bool false)))),
     ("evidence_count", .int evidence_list.length)]
  let next_state ← advance_state state finished_at "evidence" (.obj output)
  let result := step_result "AcquireEvidence" "success" started_at finished_at
    [("evidence", .arr evidence_list)] (some output)
  validate_step_result result
  validate_state next_state
  return (next_state, result)

/-- `compute` (src/steps.py). -/
def compute (state : Dict) (now : Option String) : Except String (Dict × Rec) := do
  validate_state state
  let started_at ← now_required now
  let finished_at := started_at
  let artifacts := getOr state "artifacts"
  let decomposition0 ← pyGetFrom artifacts "decomposition"
  let tasks0 ← pyGetFrom (pyOr decomposition0 (.obj [])) "tasks"
  let tasks := pyOr tasks0 (.arr [])
  let task_count : Nat :=
    match tasks with
    | .arr xs => xs.length
    | _ => 0
  let output : Dict := [("task_count", .int task_count), ("status", .str "ok")]
  let next_state ← advance_state state finished_at "computation" (.obj output)
  let result := step_result "Compute" "success" started_at finished_at
    [("tasks", tasks)] (some output)
  validate_step_result result
  validate_state next_state
  return (next_state, result)

/-- One `verification_paths` entry's output in `verify` (src/steps.py);
`none` when the entry is skipped. -/
def verifyPathEntry (base_checks : Dict) (evidence_required_default : Bool)
    (entry : J) : Option Rec :=
  match entry with
  | .obj kvs =>
    match getOr kvs "name" with
    | .str name =>
      if pyStrip name = "" then none
      else
        let er := getOr kvs "evidence_required"
        let erB := match er with
          | .null => evidence_required_default
          | v => jtruthy v
        let checks := jsetKey base_checks "evidence_required" (.bool erB)
        let passed := jtruthy (getOr checks "tasks_present") &&
          (!(jtruthy (getOr checks "evidence_required")) ||
            jtruthy (getOr checks "evidence_present"))
        some [("name", .str name), ("checks", .obj checks),
              ("status", .str (if passed then "passed" else "failed"))]
    | _ => none
  | _ => none

/-- `verify` (src/steps.py). -/
def verify (state : Dict) (now : Option String) : Except String (Dict × Rec) := do
  validate_state state
  let started_at ← now_required now
  let finished_at := started_at
  let artifacts := getOr state "artifacts"
  let decomposition0 ← pyGetFrom artifacts "decomposition"
  let tasks0 ← pyGetFrom (pyOr decomposition0 (.obj [])) "tasks"
  let tasks := pyOr tasks0 (.arr [])
  let evidence0 ← pyGetFrom artifacts "evidence"
  let evidence := pyOr evidence0 (.obj [])
  let evidence_count : J :=
    match evidence with
    | .obj kvs => getOr kvs "evidence_count"
    | _ => .int 0
  let problem0 := getOr state "problem"
  let settings0 ← pyGetFrom (pyOr problem0 (.obj [])) "settings"
  let settings ← pyDictOr settings0
  let evidence_required_default := jtruthy (getDefault settings "evidence_required" (.bool false))
  let task_count : Nat :=
    match tasks with
    | .arr xs => xs.length
    | _ => 0
  let base_checks : Dict :=
    [("tasks_present", .bool (jtruthy tasks)),
     ("task_count", .int task_count),
     ("evidence_present", .bool (jtruthy evidence_count))]
  let verification_paths := getOr settings "verification_paths"
  let output : Dict ←
    match verification_paths with
    | .arr entries =>
      if !entries.isEmpty then do
        let paths_output := entries.filterMap
          (verifyPathEntry base_checks evidence_required_default)
        let aggregate_passed := paths_output.all
          (fun path => jIsStr (getOr path "status") "passed")
        pure [("paths", .arr (paths_output.map .obj)),
              ("aggregate", .obj
                [("status", .str (if aggregate_passed then "passed" else "failed")),
                 ("total", .int paths_output.length),
                 ("failed_count", .int (paths_output.countP
                   (fun path => !(jIsStr (getOr path "status") "passed"))))]),
              ("status", .str (if aggregate_passed then "passed" else "failed"))]
      else do
        let checks := jsetKey base_checks "evidence_required" (.bool evidence_required_default)
        let passed := jtruthy (getOr checks "tasks_present") &&
          (!(jtruthy (getOr checks "evidence_required")) ||
            jtruthy (getOr checks "evidence_present"))
        pure [("checks", .obj checks), ("status", .str (if passed then "passed" else "failed"))]
    | _ => do
      let checks := jsetKey base_checks "evidence_required" (.bool evidence_required_default)
      let passed := jtruthy (getOr checks "tasks_present") &&
        (!(jtruthy (getOr checks "evidence_required")) ||
          jtruthy (getOr checks "evidence_present"))
      pure [("checks", .obj checks), ("status", .str (if passed then "passed" else "failed"))]
  let next_state ← advance_state state finished_at "verification" (.obj output)
  let result := step_result "Verify" "success" started_at finished_at
    [("tasks", tasks)] (some output)
  validate_step_result result
  validate_state next_state
  return (next_state, result)

/-- `synthesize` (src/steps.py). -/
def synthesize (state : Dict) (now : Option String) : Except String (Dict × Rec) := do
  validate_state state
  let started_at ← now_required now
  let finished_at := started_at
  let computation0 ← pyGetFrom (getOr state "artifacts") "computation"
  let task_count ← pyGetDefaultFrom (pyOr computation0 (.obj [])) "task_count" (.int 0)
  let output : Dict := [("summary", .str ("Processed " ++ pyStr task_count ++ " task(s)."))]
  let next_state ← advance_state state finished_at "synthesis" (.obj output)
  let result := step_result "Synthesize" "success" started_at finished_at
    [("task_count", task_count)] (some output)
  validate_step_result result
  validate_state next_state
  return (next_state, result)

/-- `audit` (src/steps.py).  `artifacts.keys()` requires a dict; after
`validate_state` that is guaranteed. -/
def audit (state : Dict) (now : Option String) : Except String (Dict × Rec) := do
  validate_state state
  let started_at ← now_required now
  let finished_at := started_at
  let artifactsJ := pyOr (getOr state "artifacts") (.obj [])
  let artifacts ←
    match artifactsJ with
    | .obj kvs => pure kvs
    | _ => throw "AttributeError: value has no attribute keys"
  let artifact_keys := sortStrings (artifacts.map Prod.fst)
  let output : Dict :=
    [("artifact_keys", .arr (artifact_keys.map .str)), ("status", .str "ok")]
  let next_state ← advance_state state finished_at "audit" (.obj output)
  let result := step_result "Audit" "success" started_at finished_at
    [("artifact_keys", .arr (artifact_keys.map .str))] (some output)
  validate_step_result result
  validate_state next_state
  return (next_state, result)

/-! ## Engine runner (`src/engine.py`) -/

def ENGINE_VERSION : String := "0.1.0"

def TRACE_VERSION : String := "1.0.0"

def STATE_VERSION : String := "1.0.0"

structure ExecutionResult where
  trace_id : String
  engine_version : String
  trace : List Rec
  final_state : Dict

/-- `_STEP_HANDLERS[name]`; the KeyError branch is unreachable after
`ensure_steps_known`. -/
def stepHandler (name : String) (state : Dict) (now : Option String) :
    Except String (Dict × Rec) :=
  if name = "Normalize" then normalize state now
  else if name = "Decompose" then decompose state now
  else if name = "AcquireEvidence" then acquire_evidence state now
  else if name = "Compute" then compute state now
  else if name = "Verify" then verify state now
  else if name = "Synthesize" then synthesize state now
  else if name = "Audit" then audit state now
  else .error "KeyError: unknown step handler"

/-- `_ensure_failed_state` (src/engine.py).  The two `list(... or [])`
coercions only ever see lists in the engine's states and results; the
fallback branches are unreachable there. -/
def ensure_failed_state (state : Dict) (result : Rec) (now : String) :
    Except String Dict := do
  let next_state := jsetKey state "status" (.str "failed")
  let errors0 : List J :=
    match pyOr (getOr next_state "errors") (.arr []) with
    | .arr xs => xs
    | _ => []
  let res_errors := getOr result "errors"
  let errors :=
    if jtruthy res_errors then
      errors0 ++
        (match pyOr res_errors (.arr []) with
         | .arr xs => xs
         | _ => [])
    else errors0
  let next_state :=
    if !errors.isEmpty then jsetKey next_state "errors" (.arr errors) else next_state
  let metadata ← pyDictOr (getOr next_state "metadata")
  return jsetKey next_state "metadata" (.obj (jsetKey metadata "updated_at" (.str now)))

/-- `_ensure_completed_state` (src/engine.py). -/
def ensure_completed_state (state : Dict) (now : String) : Except String Dict := do
  let next_state := jsetKey state "status" (.str "completed")
  let metadata ← pyDictOr (getOr next_state "metadata")
  return jsetKey next_state "metadata" (.obj (jsetKey metadata "updated_at" (.str now)))

/-- `_resolve_steps` (src/engine.py). -/
def engine_resolve_steps (problem_spec : Dict) : Except String (List String) := do
  let plan ← build_orchestration_plan problem_spec
  let steps := plan.steps
  ensure_steps_known steps KNOWN_STEPS
  validate_unique_steps steps
  discard <| build_linear_graph steps
  if jIsStr plan.framework "langgraph" then compile_langgraph_plan steps
  return steps

/-- `_initial_state` (src/engine.py).  The `list(... or [])` fallback is
unreachable after `validate_problem_spec`. -/
def initial_state (problem_spec : Dict) (trace_id now : String) :
    Except String Dict := do
  let constraints0 ← pyGetFrom (getOr problem_spec "inputs") "constraints"
  let constraints : List J :=
    match pyOr constraints0 (.arr []) with
    | .arr xs => xs
    | _ => []
  let settings : Dict :=
    match getOr problem_spec "settings" with
    | .obj kvs => kvs
    | _ => []
  let state : Dict :=
    [("version", .str STATE_VERSION),
     ("problem", .obj problem_spec),
     ("step_index", .int 0),
     ("status", .str "pending"),
     ("artifacts", .obj []),
     ("assumptions", .arr []),
     ("constraints", .arr constraints),
     ("errors", .arr []),
     ("metadata", .obj
       [("trace_id", .str trace_id),
        ("policy_profile", getOr settings "policy_profile"),
        ("model_profile", getOr settings "model_profile"),
        ("created_at", getOr problem_spec "created_at"),
        ("updated_at", .str now)])]
  validate_state state
  return state

/-- `record["record_hash"]`; every record constructor stores a string
there, so the fallback is unreachable. -/
def recordHashStr (record : Rec) : String :=
  match jlookup record "record_hash" with
  | some (.str s) => s
  | _ => ""

/-- The loop-exhaustion error dict built at src/engine.py lines 195-202. -/
def loopMaxIterError (cfg : LoopConfig) : J :=
  .obj [("code", .str "loop_max_iterations_reached"),
        ("message", .str ("Loop stop condition not met after "
          ++ toString cfg.max_iterations ++ " iteration(s).")),
        ("step", .str cfg.end_step)]

/-- The mutable state of the `while step_cursor < len(steps)` loop in
`execute_problem`. -/
structure RunSt where
  state : Dict
  trace : List Rec
  prev_hash : String
  index : Nat
  step_cursor : Nat
  loop_iteration : Int
  failed : Bool

/-- The values computed by one iteration of the cursor loop before any
record is appended (src/engine.py lines 169-204): the step handler's
output, the failure splice, and the loop decision. -/
structure StepOutcome where
  state_after : Dict
  result : Rec
  loop_action : Option String
  loop_iteration_for_record : Int
  next_cursor : Nat
  loop_iteration : Int
  failed : Bool

/-- Lines 169-204 of `execute_problem`: run the handler, splice in the
failure-state updates, and make the loop decision. -/
def stepOutcome (steps : List String) (loop_config : Option LoopConfig)
    (loop_bounds : Option LoopBounds) (now_value : String) (st : RunSt) :
    Except String StepOutcome := do
  let step_name := steps.getD st.step_cursor ""
  let loop_iteration :=
    match loop_bounds with
    | some b =>
      if st.step_cursor = b.start_index && st.loop_iteration = 0 then 1
      else st.loop_iteration
    | none => st.loop_iteration
  let state_before := st.state
  let (state_after, result) ← stepHandler step_name state_before (some now_value)
  let result_failed := jIsStr (getOr result "status") "failed"
  let failed := st.failed || result_failed
  let state_after ←
    if result_failed then ensure_failed_state state_after result now_value
    else pure state_after
  let loop_iteration_for_record := loop_iteration
  let (loop_action, next_cursor, loop_iteration, failed, state_after) ←
    match loop_bounds, loop_config with
    | some b, some cfg =>
      if st.step_cursor = b.end_index && loop_iteration > 0 then
        if stop_condition_met state_after cfg then
          pure ((some "stop" : Option String), st.step_cursor + 1, loop_iteration,
            failed, state_after)
        else if loop_iteration < cfg.max_iterations then
          pure (some "repeat", b.start_index, loop_iteration + 1, failed, state_after)
        else do
          let state_after2 ← ensure_failed_state state_after
            [("errors", .arr [loopMaxIterError cfg])] now_value
          pure (some "max_iterations_reached", st.step_cursor + 1, loop_iteration,
            true, state_after2)
      else pure (none, st.step_cursor + 1, loop_iteration, failed, state_after)
    | _, _ => pure (none, st.step_cursor + 1, loop_iteration, failed, state_after)
  return { state_after := state_after, result := result, loop_action := loop_action,
           loop_iteration_for_record := loop_iteration_for_record,
           next_cursor := next_cursor, loop_iteration := loop_iteration,
           failed := failed }

/-- One iteration of the cursor loop of `execute_problem`
(src/engine.py lines 168-237), up to but not including the `break` /
cursor advance at the bottom; `step_cursor` is left unchanged when the
iteration ends in the failed state, as the `break` does. -/
def stepOnce (steps : List String) (loop_config : Option LoopConfig)
    (loop_bounds : Option LoopBounds) (now_value : String) (st : RunSt) :
    Except String RunSt := do
  let o ← stepOutcome steps loop_config loop_bounds now_value st
  let record := create_trace_step st.index (getDefault st.state "step_index" (.int 0))
    o.result st.state o.state_after st.prev_hash
  let trace := st.trace ++ [record]
  let prev_hash := recordHashStr record
  let index := st.index + 1
  let (trace, prev_hash, index) :=
    match o.loop_action, loop_config with
    | some action, some cfg =>
      let control := create_trace_control index "loop" action o.loop_iteration_for_record
        cfg.start_step cfg.end_step cfg.stop_path cfg.stop_operator cfg.stop_value
        o.state_after prev_hash
      (trace ++ [control], recordHashStr control, index + 1)
    | _, _ => (trace, prev_hash, index)
  return { state := o.state_after, trace := trace, prev_hash := prev_hash, index := index,
           step_cursor := if o.failed then st.step_cursor else o.next_cursor,
           loop_iteration := o.loop_iteration, failed := o.failed }

/-- The cursor loop of `execute_problem`, driven by fuel.  The Python loop
always terminates (the cursor only moves backwards on `repeat`, which
consumes one of the at most `max_iterations` iteration counts), and
`engineFuel` over-approximates the number of iterations, so the
fuel-exhausted error is unreachable from `execute_problem`. -/
def engineLoop (steps : List String) (loop_config : Option LoopConfig)
    (loop_bounds : Option LoopBounds) (now_value : String) :
    Nat → RunSt → Except String RunSt
  | 0, _ => .error "internal: loop fuel exhausted"
  | fuel + 1, st =>
    if st.step_cursor < steps.length then do
      let st2 ← stepOnce steps loop_config loop_bounds now_value st
      if st2.failed then pure st2
      else engineLoop steps loop_config loop_bounds now_value fuel st2
    else pure st

/-- Fuel bound for `engineLoop`: at most `max_iterations + 1` passes over
the whole step list, plus slack. -/
def engineFuel (steps : List String) (loop_config : Option LoopConfig) : Nat :=
  let iters :=
    match loop_config with
    | some cfg => cfg.max_iterations.toNat
    | none => 0
  (iters + 2) * (steps.length + 1)

/-- `max_required` (src/engine.py lines 140-143). -/
def requiredStepCount (steps : List String) (loop_config : Option LoopConfig)
    (loop_bounds : Option LoopBounds) : Int :=
  match loop_bounds, loop_config with
  | some b, some cfg => steps.length + (cfg.max_iterations - 1) * b.segment_length
  | _, _ => steps.length

/-- `execute_problem` from the initial-state construction onwards
(src/engine.py lines 148-247). -/
def executeCore (problem_spec : Dict)
    (trace_id_value engine_version_value now_value : String)
    (steps : List String) (loop_config : Option LoopConfig)
    (loop_bounds : Option LoopBounds) : Except String ExecutionResult := do
  let state ← initial_state problem_spec trace_id_value now_value
  let header := create_trace_header TRACE_VERSION trace_id_value now_value
    engine_version_value (.obj problem_spec) (.obj state)
  let st0 : RunSt :=
    { state := state, trace := [header], prev_hash := recordHashStr header,
      index := 1, step_cursor := 0, loop_iteration := 0, failed := false }
  let stF ← engineLoop steps loop_config loop_bounds now_value
    (engineFuel steps loop_config) st0
  let final_state ←
    if !stF.failed && jIsStr (getOr stF.state "status") "running" then
      ensure_completed_state stF.state now_value
    else pure stF.state
  return { trace_id := trace_id_value, engine_version := engine_version_value,
           trace := stF.trace, final_state := final_state }

/-- `engine_version or ENGINE_VERSION` (the empty string is falsy). -/
def engineVersionValue (engine_version : Option String) : String :=
  match engine_version with
  | some s => if s = "" then ENGINE_VERSION else s
  | none => ENGINE_VERSION

/-- `now or problem_spec.get("created_at")`. -/
def nowValue0 (problem_spec : Dict) (now : Option String) : J :=
  match now with
  | some s => if s = "" then getOr problem_spec "created_at" else .str s
  | none => getOr problem_spec "created_at"

/-- `trace_id or str(problem_spec.get("id"))`. -/
def traceIdValue (problem_spec : Dict) (trace_id : Option String) : String :=
  match trace_id with
  | some s => if s = "" then pyStr (getOr problem_spec "id") else s
  | none => pyStr (getOr problem_spec "id")

/-- `problem_spec.get("settings") if isinstance(..., dict) else {}`. -/
def specSettings (problem_spec : Dict) : Dict :=
  match getOr problem_spec "settings" with
  | .obj kvs => kvs
  | _ => []

/-- `resolve_loop_bounds(steps, loop_config) if loop_config else None`. -/
def resolve_bounds_stage (steps : List String) (loop_config : Option LoopConfig) :
    Except String (Option LoopBounds) :=
  match loop_config with
  | some cfg => (resolve_loop_bounds steps cfg).map some
  | none => .ok none

/-- `execute_problem` (src/engine.py). -/
def execute_problem (problem_spec : Dict) (trace_id : Option String := none)
    (engine_version : Option String := none) (now : Option String := none) :
    Except String ExecutionResult := do
  validate_problem_spec problem_spec
  let engine_version_value := engineVersionValue engine_version
  validate_semver (.str engine_version_value) "engine_version"
  validate_iso8601_utc (nowValue0 problem_spec now) "now"
  -- a string after `validate_iso8601_utc`
  let now_value := pyStr (nowValue0 problem_spec now)
  let trace_id_value := traceIdValue problem_spec trace_id
  let steps ← engine_resolve_steps problem_spec
  let max_steps := getOr (specSettings problem_spec) "max_steps"
  let loop_config ← parse_loop_config problem_spec
  let loop_bounds ← resolve_bounds_stage steps loop_config
  let max_required := requiredStepCount steps loop_config loop_bounds
  -- `max_steps is not None and max_steps < max_required`; `max_steps` is a
  -- Python int whenever it is present and validation passed
  if !(jIsNull max_steps) && pyToInt max_steps < max_required then
    throw "settings.max_steps is lower than required step count"
  executeCore problem_spec trace_id_value engine_version_value now_value
    steps loop_config loop_bounds

/-! ## Projections and checkers used by the claims -/

/-- The `type` field of a record, as a string. -/
def recTypeStr (record : Rec) : String :=
  match getOr record "type" with
  | .str s => s
  | _ => ""

/-- The `action` field of a (control) record, as a string. -/
def recActionStr (record : Rec) : String :=
  match getOr record "action" with
  | .str s => s
  | _ => ""

/-- The `status` field of a step result, as a string. -/
def resultStatusStr (result : Rec) : String :=
  match getOr result "status" with
  | .str s => s
  | _ => ""

/-- The `result.step` field of a step record. -/
def resultStepStr (record : Rec) : String :=
  match getOr record "result" with
  | .obj res =>
    match getOr res "step" with
    | .str s => s
    | _ => ""
  | _ => ""

/-- The `type` fields of a trace, in order. -/
def traceTypes (trace : List Rec) : List String :=
  trace.map recTypeStr

/-- The `action` fields of the control records of a trace, in order. -/
def controlActions (trace : List Rec) : List String :=
  (trace.filter (fun r => recTypeStr r = "control")).map recActionStr

/-- The `result.step` names of the step records of a trace, in order. -/
def traceStepNames (trace : List Rec) : List String :=
  (trace.filter (fun r => recTypeStr r = "step")).map resultStepStr

/-- The final state's `status`, as a string. -/
def finalStatusStr (res : ExecutionResult) : String :=
  match getOr res.final_state "status" with
  | .str s => s
  | _ => ""

/-- The final state's `step_index`, as an integer. -/
def finalStepIndex (res : ExecutionResult) : Int :=
  pyToInt (getOr res.final_state "step_index")

/-- The trace of a successful run, `[]` on an error. -/
def resultTrace : Except String ExecutionResult → List Rec
  | .ok res => res.trace
  | .error _ => []

/-- Invariant I1 at one record: the stored `record_hash` equals the hash of
the record with that field removed. -/
def recordHashOk (record : Rec) : Bool :=
  match jlookup record "record_hash" with
  | some (.str s) => s = compute_record_hash record
  | _ => false

/-- Invariant I1 over a trace. -/
def hashesOk (trace : List Rec) : Bool :=
  trace.all recordHashOk

/-- Invariants I2/I3 at one record: it stores `prev_hash = prev` and
`index = i`. -/
def recLinkOk (prev : String) (i : Nat) (r : Rec) : Bool :=
  (match jlookup r "prev_hash" with
   | some (.str s) => s = prev
   | _ => false) &&
  (match jlookup r "index" with
   | some (.int n) => n = (i : Int)
   | _ => false)

/-- Invariants I2/I3 over the records after the header: each record stores
`prev_hash = prev` and `index = i`, chaining on its own `record_hash`. -/
def chainIdxFrom (prev : String) (i : Nat) : List Rec → Bool
  | [] => true
  | r :: rest => recLinkOk prev i r && chainIdxFrom (recordHashStr r) (i + 1) rest

/-- Invariants I2/I3 over a whole trace: a header (which carries neither
`index` nor `prev_hash`) anchors the chain, and the following records
carry `prev_hash` links and indices 1, 2, ... -/
def traceChainOk (trace : List Rec) : Bool :=
  match trace with
  | [] => false
  | header :: rest =>
    recTypeStr header = "header" && (jlookup header "index").isNone &&
      (jlookup header "prev_hash").isNone &&
      chainIdxFrom (recordHashStr header) 1 rest

/-- The hash of the last record of `recs`, or `prev` when none was
appended. -/
def lastHash (prev : String) : List Rec → String
  | [] => prev
  | r :: rest => lastHash (recordHashStr r) rest

/-- The state's `errors` contain the loop-exhaustion error for `cfg`. -/
def hasLoopMaxIterError (state : Dict) (cfg : LoopConfig) : Bool :=
  match getOr state "errors" with
  | .arr xs => xs.any (fun e =>
      match e with
      | .obj kvs =>
        jIsStr (getOr kvs "code") "loop_max_iterations_reached" &&
          jIsStr (getOr kvs "message") ("Loop stop condition not met after "
            ++ toString cfg.max_iterations ++ " iteration(s).") &&
          jIsStr (getOr kvs "step") cfg.end_step
      | _ => false)
  | _ => false

/-- `pyDictOr` succeeds on the state's `metadata` slot. -/
def metadataShapeOk (state : Dict) : Bool :=
  match pyDictOr (getOr state "metadata") with
  | .ok _ => true
  | .error _ => false

/-- A view of one loop-body iteration: `(failed, step_cursor,
loop_iteration, record types, control actions)`. -/
def stepOnceView (steps : List String) (cfg : LoopConfig) (b : LoopBounds)
    (now : String) (st : RunSt) : Option (Bool × Nat × Int × List String × List String) :=
  match stepOnce steps (some cfg) (some b) now st with
  | .ok st2 => some (st2.failed, st2.step_cursor, st2.loop_iteration,
      traceTypes st2.trace, controlActions st2.trace)
  | .error _ => none

/-- Whether the loop-body iteration left the loop-exhaustion error in the
state. -/
def stepOnceErrFlag (steps : List String) (cfg : LoopConfig) (b : LoopBounds)
    (now : String) (st : RunSt) : Bool :=
  match stepOnce steps (some cfg) (some b) now st with
  | .ok st2 => hasLoopMaxIterError st2.state cfg
  | .error _ => false

/-- The Normalize failure condition of the claim: the prompt is missing,
not a string, or blank after trimming. -/
def promptInvalid (prompt : J) : Bool :=
  match prompt with
  | .str s => pyStrip s = ""
  | _ => true

/-! ## Spec-side transcription of the stop predicate (for the refinement
claim about `stop_condition_met`) -/

/-- Transcribed from the spec: resolve the dotted path by walking segments
into mappings only (never lists); a missing segment yields absent
(`none`). -/
def resolvePathSpec : List String → J → Option J
  | [], current => some current
  | segment :: rest, current =>
    match current with
    | .obj kvs =>
      match jlookup kvs segment with
      | some v => resolvePathSpec rest v
      | none => none
    | _ => none

/-- Transcribed from the spec: the stop predicate is false when the
resolved value is absent (a JSON null resolves to Python `None`, which the
predicate also treats as absent); `equals`/`not_equals` use value
equality; the comparison operators are true only when the resolved left
value is a non-boolean integer satisfying the comparison, and false
otherwise. -/
def stopSpecMet (state : Dict) (config : LoopConfig) : Bool :=
  match resolvePathSpec (splitDots config.stop_path) (.obj state) with
  | none => false
  | some .null => false
  | some value =>
    if config.stop_operator = "equals" then pyEq value config.stop_value
    else if config.stop_operator = "not_equals" then !(pyEq value config.stop_value)
    else if config.stop_operator = "gt" then
      match value, config.stop_value with
      | .int n, .int t => n > t
      | _, _ => false
    else if config.stop_operator = "gte" then
      match value, config.stop_value with
      | .int n, .int t => n ≥ t
      | _, _ => false
    else if config.stop_operator = "lt" then
      match value, config.stop_value with
      | .int n, .int t => n < t
      | _, _ => false
    else if config.stop_operator = "lte" then
      match value, config.stop_value with
      | .int n, .int t => n ≤ t
      | _, _ => false
    else false

/-- `spec` with `settings.loop.enabled` set to `True` (for the
enabled-defaults-to-true claim). -/
def withLoopEnabledTrue (problem_spec settings loopD : Dict) : Dict :=
  jsetKey problem_spec "settings"
    (.obj (jsetKey settings "loop" (.obj (jsetKey loopD "enabled" (.bool true)))))

/-! ## Concrete inputs used by witnesses and counterexamples -/

/-- The pinned timestamp of the spec's literal scenarios. -/
def tNow : String := "2026-02-02T00:00:00Z"

/-- The minimal happy-path spec (spec section 8, scenario 1). -/
def minSpec : Dict :=
  [("version", .str "1.0.0"), ("id", .str "req-1"),
   ("created_at", .str tNow),
   ("inputs", .obj [("prompt", .str "Hello world")])]

/-- Scenario 5: a loop of segment length 3 with `max_iterations` 2 and
`settings.max_steps` 5. -/
def maxStepsSpec : Dict :=
  [("version", .str "1.0.0"), ("id", .str "req-loop-1"),
   ("created_at", .str tNow),
   ("inputs", .obj [("prompt", .str "Check loop behavior")]),
   ("settings", .obj
     [("max_steps", .int 5),
      ("loop", .obj
        [("enabled", .bool true), ("start_step", .str "AcquireEvidence"),
         ("end_step", .str "Verify"), ("max_iterations", .int 2),
         ("stop_condition", .obj
           [("path", .str "artifacts.verification.status"),
            ("equals", .str "passed")])])])]

/-- A spec selecting `orchestration_framework = "adapter"`. -/
def specAdapter : Dict :=
  [("version", .str "1.0.0"), ("id", .str "req-orch-1"),
   ("created_at", .str tNow),
   ("inputs", .obj [("prompt", .str "hello")]),
   ("settings", .obj [("orchestration_framework", .str "adapter")])]

/-- A spec selecting `orchestration_framework = "langgraph"`. -/
def specLanggraph : Dict :=
  [("version", .str "1.0.0"), ("id", .str "req-orch-2"),
   ("created_at", .str tNow),
   ("inputs", .obj [("prompt", .str "hello")]),
   ("settings", .obj [("orchestration_framework", .str "langgraph")])]

/-- A spec whose loop is configured but disabled. -/
def specLoopDisabled : Dict :=
  [("version", .str "1.0.0"), ("id", .str "req-dis-1"),
   ("created_at", .str tNow),
   ("inputs", .obj [("prompt", .str "hello")]),
   ("settings", .obj [("loop", .obj [("enabled", .bool false)])])]

/-- A valid reasoning state whose prompt is blank. -/
def blankPromptState : Dict :=
  [("version", .str "1.0.0"),
   ("problem", .obj
     [("version", .str "1.0.0"), ("id", .str "req-b"),
      ("created_at", .str tNow),
      ("inputs", .obj [("prompt", .str "   ")])]),
   ("step_index", .int 0),
   ("status", .str "pending"),
   ("artifacts", .obj []),
   ("metadata", .obj [("trace_id", .str "t-b")])]

/-- A tiny one-step policy and loop used to exercise the cursor protocol. -/
def wSteps : List String := ["AcquireEvidence"]

def wCfg : LoopConfig :=
  { start_step := "AcquireEvidence", end_step := "AcquireEvidence",
    max_iterations := 2, stop_path := "artifacts.verification.status",
    stop_operator := "equals", stop_value := .str "passed" }

def wBounds : LoopBounds := { start_index := 0, end_index := 0 }

def wState : Dict := [("step_index", .int 0), ("status", .str "running")]

/-- Loop state on iteration 1 of 2 (below `max_iterations`). -/
def wSt1 : RunSt :=
  { state := wState, trace := [], prev_hash := "p0", index := 5,
    step_cursor := 0, loop_iteration := 1, failed := false }

/-- Loop state on iteration 2 of 2 (`max_iterations` reached). -/
def wSt2 : RunSt :=
  { state := wState, trace := [], prev_hash := "p0", index := 5,
    step_cursor := 0, loop_iteration := 2, failed := false }

/-- The loop configuration parsed from `maxStepsSpec`. -/
def maxStepsCfg : LoopConfig :=
  { start_step := "AcquireEvidence", end_step := "Verify", max_iterations := 2,
    stop_path := "artifacts.verification.status", stop_operator := "equals",
    stop_value := .str "passed" }

/-- The loop bounds of `maxStepsSpec` over the default policy. -/
def maxStepsBounds : LoopBounds := { start_index := 2, end_index := 4 }

/-! # Theorems

First, lemmas about the dict operations and the record constructors; then
the claim theorems. -/

theorem jlookup_jsetKey_self (kvs : Dict) (k : String) (v : J) :
    jlookup (jsetKey kvs k v) k = some v := by
  induction kvs with
  | nil => simp [jsetKey, jlookup]
  | cons kv rest ih =>
    obtain ⟨k', w⟩ := kv
    by_cases h : k' = k
    · simp [jsetKey, jlookup, h]
    · simp [jsetKey, jlookup, h, ih]

theorem jlookup_jsetKey_ne (kvs : Dict) (k k' : String) (v : J) (h : k' ≠ k) :
    jlookup (jsetKey kvs k v) k' = jlookup kvs k' := by
  have h' : ¬k = k' := fun e => h e.symm
  induction kvs with
  | nil => simp [jsetKey, jlookup, h']
  | cons kv rest ih =>
    obtain ⟨k0, w⟩ := kv
    by_cases h0 : k0 = k
    · subst h0
      simp [jsetKey, jlookup, h']
    · simp [jsetKey, jlookup, h0, ih]

theorem jsetKey_fresh (kvs : Dict) (k : String) (v : J)
    (h : ∀ kv ∈ kvs, kv.1 ≠ k) : jsetKey kvs k v = kvs ++ [(k, v)] := by
  induction kvs with
  | nil => simp [jsetKey]
  | cons kv rest ih =>
    obtain ⟨k0, w⟩ := kv
    have hk0 : k0 ≠ k := h (k0, w) (List.mem_cons_self _ _)
    simp only [jsetKey, hk0, if_false, List.cons_append, List.cons.injEq, true_and]
    exact ih (fun kv hm => h kv (List.mem_cons_of_mem _ hm))

theorem jerase_fresh (kvs : Dict) (k : String)
    (h : ∀ kv ∈ kvs, kv.1 ≠ k) : jerase kvs k = kvs := by
  unfold jerase
  apply List.filter_eq_self.mpr
  intro kv hm
  simpa using h kv hm

theorem record_without_hash_seal (base : Rec) (v : J)
    (h : ∀ kv ∈ base, kv.1 ≠ "record_hash") :
    record_without_hash (jsetKey base "record_hash" v) = base := by
  rw [record_without_hash, jsetKey_fresh base _ _ h]
  unfold jerase
  rw [List.filter_append]
  have h1 : List.filter (fun kv => kv.1 ≠ "record_hash") base = base :=
    jerase_fresh base _ h
  rw [h1]
  simp

theorem compute_seal (base : Rec) (v : J)
    (h : ∀ kv ∈ base, kv.1 ≠ "record_hash") :
    compute_record_hash (jsetKey base "record_hash" v) = compute_record_hash base := by
  unfold compute_record_hash
  rw [record_without_hash_seal base v h, record_without_hash, jerase_fresh base _ h]

theorem recordHashOk_seal (base : Rec)
    (h : ∀ kv ∈ base, kv.1 ≠ "record_hash") :
    recordHashOk (jsetKey base "record_hash" (.str (compute_record_hash base))) = true := by
  rw [recordHashOk, jlookup_jsetKey_self, compute_seal base _ h]
  simp

theorem recordHashOk_header (v t c e : String) (ps is : J) (ha ca : String) :
    recordHashOk (create_trace_header v t c e ps is ha ca) = true := by
  unfold create_trace_header
  apply recordHashOk_seal
  intro kv hm
  simp only [List.mem_cons, List.not_mem_nil, or_false] at hm
  rcases hm with rfl|rfl|rfl|rfl|rfl|rfl|rfl|rfl|rfl <;> simp

theorem recordHashOk_step (i : Nat) (si : J) (res sb sa : Rec) (p : String) :
    recordHashOk (create_trace_step i si res sb sa p) = true := by
  unfold create_trace_step
  apply recordHashOk_seal
  intro kv hm
  simp only [List.mem_cons, List.not_mem_nil, or_false] at hm
  rcases hm with rfl|rfl|rfl|rfl|rfl|rfl|rfl <;> simp

theorem recordHashOk_control (i : Nat) (ct a : String) (li : Int)
    (ss es sp so : String) (sv : J) (stt : Rec) (p : String) :
    recordHashOk (create_trace_control i ct a li ss es sp so sv stt p) = true := by
  unfold create_trace_control
  apply recordHashOk_seal
  intro kv hm
  simp only [List.mem_cons, List.not_mem_nil, or_false] at hm
  rcases hm with rfl|rfl|rfl|rfl|rfl|rfl|rfl|rfl|rfl|rfl|rfl|rfl <;> simp

theorem header_type (v t c e : String) (ps is : J) (ha ca : String) :
    recTypeStr (create_trace_header v t c e ps is ha ca) = "header" := by
  unfold recTypeStr getOr create_trace_header
  rw [jlookup_jsetKey_ne _ _ _ _ (by decide)]
  simp [jlookup]

theorem header_no_index (v t c e : String) (ps is : J) (ha ca : String) :
    jlookup (create_trace_header v t c e ps is ha ca) "index" = none := by
  unfold create_trace_header
  rw [jlookup_jsetKey_ne _ _ _ _ (by decide)]
  simp [jlookup]

theorem header_no_prev (v t c e : String) (ps is : J) (ha ca : String) :
    jlookup (create_trace_header v t c e ps is ha ca) "prev_hash" = none := by
  unfold create_trace_header
  rw [jlookup_jsetKey_ne _ _ _ _ (by decide)]
  simp [jlookup]

theorem step_type (i : Nat) (si : J) (res sb sa : Rec) (p : String) :
    recTypeStr (create_trace_step i si res sb sa p) = "step" := by
  unfold recTypeStr getOr create_trace_step
  rw [jlookup_jsetKey_ne _ _ _ _ (by decide)]
  simp [jlookup]

theorem step_prev (i : Nat) (si : J) (res sb sa : Rec) (p : String) :
    jlookup (create_trace_step i si res sb sa p) "prev_hash" = some (.str p) := by
  unfold create_trace_step
  rw [jlookup_jsetKey_ne _ _ _ _ (by decide)]
  simp [jlookup]

theorem step_index_field (i : Nat) (si : J) (res sb sa : Rec) (p : String) :
    jlookup (create_trace_step i si res sb sa p) "index" = some (.int i) := by
  unfold create_trace_step
  rw [jlookup_jsetKey_ne _ _ _ _ (by decide)]
  simp [jlookup]

theorem control_type (i : Nat) (ct a : String) (li : Int)
    (ss es sp so : String) (sv : J) (stt : Rec) (p : String) :
    recTypeStr (create_trace_control i ct a li ss es sp so sv stt p) = "control" := by
  unfold recTypeStr getOr create_trace_control
  rw [jlookup_jsetKey_ne _ _ _ _ (by decide)]
  simp [jlookup]

theorem control_prev (i : Nat) (ct a : String) (li : Int)
    (ss es sp so : String) (sv : J) (stt : Rec) (p : String) :
    jlookup (create_trace_control i ct a li ss es sp so sv stt p) "prev_hash" = some (.str p) := by
  unfold create_trace_control
  rw [jlookup_jsetKey_ne _ _ _ _ (by decide)]
  simp [jlookup]

theorem control_index_field (i : Nat) (ct a : String) (li : Int)
    (ss es sp so : String) (sv : J) (stt : Rec) (p : String) :
    jlookup (create_trace_control i ct a li ss es sp so sv stt p) "index" = some (.int i) := by
  unfold create_trace_control
  rw [jlookup_jsetKey_ne _ _ _ _ (by decide)]
  simp [jlookup]

theorem control_action (i : Nat) (ct a : String) (li : Int)
    (ss es sp so : String) (sv : J) (stt : Rec) (p : String) :
    recActionStr (create_trace_control i ct a li ss es sp so sv stt p) = a := by
  unfold recActionStr getOr create_trace_control
  rw [jlookup_jsetKey_ne _ _ _ _ (by decide)]
  simp [jlookup]

theorem chainIdxFrom_append (p : String) (i : Nat) (r1 r2 : List Rec) :
    chainIdxFrom p i (r1 ++ r2) =
      (chainIdxFrom p i r1 && chainIdxFrom (lastHash p r1) (i + r1.length) r2) := by
  induction r1 generalizing p i with
  | nil => simp [chainIdxFrom, lastHash]
  | cons r rest ih =>
    show (recLinkOk p i r && chainIdxFrom (recordHashStr r) (i + 1) (rest ++ r2)) = _
    rw [ih]
    show _ = ((recLinkOk p i r && chainIdxFrom (recordHashStr r) (i + 1) rest) &&
      chainIdxFrom (lastHash (recordHashStr r) rest) (i + (rest.length + 1)) r2)
    have e : i + (rest.length + 1) = i + 1 + rest.length := by omega
    rw [Bool.and_assoc, e]

theorem recLinkOk_step (i : Nat) (si : J) (res sb sa : Rec) (p : String) :
    recLinkOk p i (create_trace_step i si res sb sa p) = true := by
  simp [recLinkOk, step_prev, step_index_field]

theorem recLinkOk_control (i : Nat) (ct a : String) (li : Int)
    (ss es sp so : String) (sv : J) (stt : Rec) (p : String) :
    recLinkOk p i (create_trace_control i ct a li ss es sp so sv stt p) = true := by
  simp [recLinkOk, control_prev, control_index_field]

theorem hashesOk_append (a b : List Rec) :
    hashesOk (a ++ b) = (hashesOk a && hashesOk b) := by
  simp [hashesOk]

theorem controlActions_append (a b : List Rec) :
    controlActions (a ++ b) = controlActions a ++ controlActions b := by
  simp [controlActions, List.filter_append]

theorem traceTypes_append (a b : List Rec) :
    traceTypes (a ++ b) = traceTypes a ++ traceTypes b := by
  simp [traceTypes]

theorem controlActions_step_rec (i : Nat) (si : J) (res sb sa : Rec) (p : String) :
    controlActions [create_trace_step i si res sb sa p] = [] := by
  simp [controlActions, step_type]

theorem controlActions_control_rec (i : Nat) (ct a : String) (li : Int)
    (ss es sp so : String) (sv : J) (stt : Rec) (p : String) :
    controlActions [create_trace_control i ct a li ss es sp so sv stt p] = [a] := by
  simp [controlActions, control_type, control_action]

/-- The record block appended by one loop-body iteration is hash-correct,
chains on `prev_hash` with consecutive indices, and contains no control
record when no loop is configured. -/
theorem stepOnce_shape (steps : List String) (cfg : Option LoopConfig)
    (bounds : Option LoopBounds) (now : String) (st st' : RunSt)
    (h : stepOnce steps cfg bounds now st = .ok st') :
    ∃ recs, st'.trace = st.trace ++ recs ∧
      hashesOk recs = true ∧
      chainIdxFrom st.prev_hash st.index recs = true ∧
      st'.index = st.index + recs.length ∧
      st'.prev_hash = lastHash st.prev_hash recs ∧
      (cfg = none → controlActions recs = []) := by
  cases ho : stepOutcome steps cfg bounds now st with
  | error e => simp [stepOnce, ho, Except.bind] at h
  | ok o =>
    simp only [stepOnce, ho, bind, Except.bind, pure, Except.pure] at h
    cases ha : o.loop_action with
    | none =>
      rw [ha] at h
      cases cfg with
      | none =>
        simp only [Except.ok.injEq] at h
        subst h
        refine ⟨[create_trace_step st.index (getDefault st.state "step_index" (.int 0))
          o.result st.state o.state_after st.prev_hash], rfl, ?_, ?_, rfl, rfl, ?_⟩
        · simp [hashesOk, recordHashOk_step]
        · simp [chainIdxFrom, recLinkOk_step]
        · intro _
          exact controlActions_step_rec _ _ _ _ _ _
      | some c =>
        simp only [Except.ok.injEq] at h
        subst h
        refine ⟨[create_trace_step st.index (getDefault st.state "step_index" (.int 0))
          o.result st.state o.state_after st.prev_hash], rfl, ?_, ?_, rfl, rfl, ?_⟩
        · simp [hashesOk, recordHashOk_step]
        · simp [chainIdxFrom, recLinkOk_step]
        · intro hc
          cases hc
    | some action =>
      rw [ha] at h
      cases cfg with
      | none =>
        simp only [Except.ok.injEq] at h
        subst h
        refine ⟨[create_trace_step st.index (getDefault st.state "step_index" (.int 0))
          o.result st.state o.state_after st.prev_hash], rfl, ?_, ?_, rfl, rfl, ?_⟩
        · simp [hashesOk, recordHashOk_step]
        · simp [chainIdxFrom, recLinkOk_step]
        · intro _
          exact controlActions_step_rec _ _ _ _ _ _
      | some c =>
        simp only [Except.ok.injEq] at h
        subst h
        refine ⟨[create_trace_step st.index (getDefault st.state "step_index" (.int 0))
            o.result st.state o.state_after st.prev_hash,
          create_trace_control (st.index + 1) "loop" action o.loop_iteration_for_record
            c.start_step c.end_step c.stop_path c.stop_operator c.stop_value
            o.state_after (recordHashStr (create_trace_step st.index
              (getDefault st.state "step_index" (.int 0)) o.result st.state
              o.state_after st.prev_hash))],
          by simp, ?_, ?_, rfl, rfl, ?_⟩
        · simp [hashesOk, recordHashOk_step, recordHashOk_control]
        · simp [chainIdxFrom, recLinkOk_step, recLinkOk_control]
        · intro hc
          cases hc

theorem lastHash_append (p : String) (a b : List Rec) :
    lastHash p (a ++ b) = lastHash (lastHash p a) b := by
  induction a generalizing p with
  | nil => rfl
  | cons r rest ih => exact ih (recordHashStr r)

/-- The records appended by the whole cursor loop are hash-correct and
chain on `prev_hash` with consecutive indices; no control record appears
when no loop is configured. -/
theorem engineLoop_shape (steps : List String) (cfg : Option LoopConfig)
    (bounds : Option LoopBounds) (now : String) :
    ∀ (fuel : Nat) (st st' : RunSt),
      engineLoop steps cfg bounds now fuel st = .ok st' →
      ∃ recs, st'.trace = st.trace ++ recs ∧
        hashesOk recs = true ∧
        chainIdxFrom st.prev_hash st.index recs = true ∧
        st'.index = st.index + recs.length ∧
        st'.prev_hash = lastHash st.prev_hash recs ∧
        (cfg = none → controlActions recs = []) := by
  intro fuel
  induction fuel with
  | zero => intro st st' h; simp [engineLoop] at h
  | succ fuel ih =>
    intro st st' h
    by_cases hcur : st.step_cursor < steps.length
    · rw [engineLoop, if_pos hcur] at h
      cases hso : stepOnce steps cfg bounds now st with
      | error e => rw [hso] at h; simp [bind, Except.bind] at h
      | ok st2 =>
        rw [hso] at h
        simp only [bind, Except.bind] at h
        obtain ⟨recs1, ht1, hh1, hc1, hi1, hp1, hn1⟩ :=
          stepOnce_shape steps cfg bounds now st st2 hso
        by_cases hf : st2.failed = true
        · rw [hf] at h
          simp only [if_true, pure, Except.pure, Except.ok.injEq] at h
          subst h
          exact ⟨recs1, ht1, hh1, hc1, hi1, hp1, hn1⟩
        · rw [Bool.not_eq_true] at hf
          rw [hf] at h
          simp only [Bool.false_eq_true, if_false] at h
          obtain ⟨recs2, ht2, hh2, hc2, hi2, hp2, hn2⟩ := ih st2 st' h
          refine ⟨recs1 ++ recs2, ?_, ?_, ?_, ?_, ?_, ?_⟩
          · rw [ht2, ht1, List.append_assoc]
          · rw [hashesOk_append, hh1, hh2]; rfl
          · rw [chainIdxFrom_append, hc1]
            rw [hp1, hi1] at hc2
            rw [hc2]
            rfl
          · rw [hi2, hi1, List.length_append]; omega
          · rw [hp2, hp1, lastHash_append]
          · intro hnone
            rw [controlActions_append, hn1 hnone, hn2 hnone]
            rfl
    · rw [engineLoop, if_neg hcur] at h
      simp only [pure, Except.pure, Except.ok.injEq] at h
      subst h
      exact ⟨[], by simp, rfl, rfl, by simp, rfl, fun _ => rfl⟩

/-- Every successful `executeCore` trace is a header followed by a
hash-correct, prev-hash-chained, consecutively indexed record block; no
control records appear without a loop configuration. -/
theorem executeCore_invariants (spec : Dict) (tid ev nw : String)
    (steps : List String) (cfg : Option LoopConfig) (bounds : Option LoopBounds)
    (res : ExecutionResult)
    (h : executeCore spec tid ev nw steps cfg bounds = .ok res) :
    hashesOk res.trace = true ∧ traceChainOk res.trace = true ∧
      (cfg = none → controlActions res.trace = []) := by
  cases his : initial_state spec tid nw with
  | error e => simp [executeCore, his, bind, Except.bind] at h
  | ok state =>
    simp only [executeCore, his, bind, Except.bind] at h
    cases hel : engineLoop steps cfg bounds nw (engineFuel steps cfg)
        { state := state,
          trace := [create_trace_header TRACE_VERSION tid nw ev (.obj spec) (.obj state)],
          prev_hash := recordHashStr
            (create_trace_header TRACE_VERSION tid nw ev (.obj spec) (.obj state)),
          index := 1, step_cursor := 0, loop_iteration := 0, failed := false } with
    | error e => rw [hel] at h; simp at h
    | ok stF =>
      simp only [hel] at h
      obtain ⟨recs, ht, hh, hc, _, _, hn⟩ :=
        engineLoop_shape steps cfg bounds nw _ _ _ hel
      have htrace : res.trace = stF.trace := by
        by_cases hrun : (!stF.failed && jIsStr (getOr stF.state "status") "running") = true
        · simp only [hrun, if_true] at h
          cases hec : ensure_completed_state stF.state nw with
          | error e => simp [hec, bind, Except.bind] at h
          | ok fs =>
            simp only [hec, bind, Except.bind, pure, Except.pure, Except.ok.injEq] at h
            rw [← h]
        · rw [Bool.not_eq_true] at hrun
          simp only [hrun, Bool.false_eq_true, if_false, pure, Except.pure, bind, Except.bind,
            Except.ok.injEq] at h
          rw [← h]
      rw [htrace, ht]
      refine ⟨?_, ?_, ?_⟩
      · rw [hashesOk_append, hh]
        simp [hashesOk, recordHashOk_header]
      · simp only [traceChainOk, List.singleton_append]
        rw [header_type, header_no_index, header_no_prev]
        simpa using hc
      · intro hnone
        rw [controlActions_append, hn hnone]
        simp [controlActions, header_type]

/-- A successful `execute_problem` run factors through its preamble stages
and `executeCore`. -/
theorem execute_problem_stages (spec : Dict) (tid ev nw : Option String)
    (res : ExecutionResult) (h : execute_problem spec tid ev nw = .ok res) :
    ∃ steps cfg bounds,
      engine_resolve_steps spec = .ok steps ∧
      parse_loop_config spec = .ok cfg ∧
      resolve_bounds_stage steps cfg = .ok bounds ∧
      executeCore spec (traceIdValue spec tid) (engineVersionValue ev)
        (pyStr (nowValue0 spec nw)) steps cfg bounds = .ok res := by
  unfold execute_problem at h
  cases hv : validate_problem_spec spec with
  | error e => rw [hv] at h; simp [bind, Except.bind] at h
  | ok u =>
    rw [hv] at h
    simp only [bind, Except.bind] at h
    cases hsem : validate_semver (.str (engineVersionValue ev)) "engine_version" with
    | error e => simp [hsem] at h
    | ok u2 =>
      simp only [hsem] at h
      cases hiso : validate_iso8601_utc (nowValue0 spec nw) "now" with
      | error e => simp [hiso] at h
      | ok u3 =>
        simp only [hiso] at h
        cases hsteps : engine_resolve_steps spec with
        | error e => simp [hsteps] at h
        | ok steps =>
          simp only [hsteps] at h
          cases hl : parse_loop_config spec with
          | error e => simp [hl] at h
          | ok cfg =>
            simp only [hl] at h
            cases hb : resolve_bounds_stage steps cfg with
            | error e => simp [hb] at h
            | ok bounds =>
              simp only [hb] at h
              by_cases hguard : (!(jIsNull (getOr (specSettings spec) "max_steps")) &&
                  pyToInt (getOr (specSettings spec) "max_steps") <
                    requiredStepCount steps cfg bounds) = true
              · simp only [hguard, if_true] at h
                simp [throw, throwThe, MonadExceptOf.throw] at h
              · rw [Bool.not_eq_true] at hguard
                simp only [hguard, Bool.false_eq_true, if_false, pure, Except.pure,
                  bind, Except.bind] at h
                exact ⟨steps, cfg, bounds, rfl, rfl, hb, h⟩

/-- C1: `execute_problem` is deterministic — two calls with identical
problem spec, trace id, engine version and `now` produce identical results
(the same record sequence, including all interior hashes, and equal final
states). -/
theorem C1_execute_deterministic (spec₁ spec₂ : Dict)
    (tid₁ tid₂ ev₁ ev₂ nw₁ nw₂ : Option String)
    (hs : spec₁ = spec₂) (ht : tid₁ = tid₂) (he : ev₁ = ev₂) (hn : nw₁ = nw₂) :
    execute_problem spec₁ tid₁ ev₁ nw₁ = execute_problem spec₂ tid₂ ev₂ nw₂ := by
  subst hs; subst ht; subst he; subst hn; rfl

/-- Witness for C1 at the minimal happy-path spec. -/
theorem C1_execute_deterministic_witness :
    execute_problem minSpec (some "trace-1") none (some tNow) =
      execute_problem minSpec (some "trace-1") none (some tNow) :=
  C1_execute_deterministic minSpec minSpec (some "trace-1") (some "trace-1")
    none none (some tNow) (some tNow) rfl rfl rfl rfl

/-- C2: in every trace returned by `execute_problem`, every record's
`record_hash` equals the hex SHA-256 of the canonical JSON of the record
with the `record_hash` field removed. -/
theorem C2_record_hash_invariant (spec : Dict) (tid ev nw : Option String)
    (res : ExecutionResult) (h : execute_problem spec tid ev nw = .ok res) :
    hashesOk res.trace = true := by
  obtain ⟨steps, cfg, bounds, _, _, _, hcore⟩ :=
    execute_problem_stages spec tid ev nw res h
  exact (executeCore_invariants _ _ _ _ _ _ _ _ hcore).1

/-- Witness for C2: the minimal happy-path run succeeds and its trace
satisfies the record-hash invariant. -/
theorem C2_record_hash_invariant_witness :
    (execute_problem minSpec (some "trace-1") none (some tNow)).toOption.isSome = true ∧
    hashesOk (resultTrace (execute_problem minSpec (some "trace-1") none (some tNow))) = true := by
  refine ⟨rfl, ?_⟩
  cases h : execute_problem minSpec (some "trace-1") none (some tNow) with
  | ok res => exact C2_record_hash_invariant _ _ _ _ _ h
  | error e =>
    have hs : (execute_problem minSpec (some "trace-1") none (some tNow)).toOption.isSome
        = true := rfl
    rw [h] at hs
    simp [Except.toOption] at hs

/-- C3 as stated is false on the code: the header record of a trace
carries no `index` field at all (indices start at 1 on the record after
the header). -/
theorem C3_counterexample :
    (execute_problem minSpec (some "trace-1") none (some tNow)).toOption.map
      (fun res => ((jlookup (res.trace.headD []) "index").isNone,
        recTypeStr (res.trace.headD []))) = some (true, "header") := by decide

/-- C3 amended: in every trace returned by `execute_problem`, the trace
starts with a header record that carries neither `index` nor `prev_hash`;
every following record's `prev_hash` equals the `record_hash` of the
immediately preceding record, and the `index` fields of the records after
the header are 1, 2, 3, ... in order. -/
theorem C3_chain_and_indices (spec : Dict) (tid ev nw : Option String)
    (res : ExecutionResult) (h : execute_problem spec tid ev nw = .ok res) :
    traceChainOk res.trace = true := by
  obtain ⟨steps, cfg, bounds, _, _, _, hcore⟩ :=
    execute_problem_stages spec tid ev nw res h
  exact (executeCore_invariants _ _ _ _ _ _ _ _ hcore).2.1

/-- Witness for the amended C3 at the minimal happy-path run. -/
theorem C3_chain_and_indices_witness :
    (execute_problem minSpec (some "trace-1") none (some tNow)).toOption.isSome = true ∧
    traceChainOk (resultTrace (execute_problem minSpec (some "trace-1") none (some tNow))) = true := by
  refine ⟨rfl, ?_⟩
  cases h : execute_problem minSpec (some "trace-1") none (some tNow) with
  | ok res => exact C3_chain_and_indices _ _ _ _ _ h
  | error e =>
    have hs : (execute_problem minSpec (some "trace-1") none (some tNow)).toOption.isSome
        = true := rfl
    rw [h] at hs
    simp [Except.toOption] at hs

/-- C4: on the minimal spec with `trace_id` "trace-1" and `now` equal to
`created_at`, `execute_problem` returns exactly 8 trace records — one
header followed by 7 step records and no control records — with
`final_state.status = "completed"` and `final_state.step_index = 7`. -/
theorem C4_minimal_happy_path :
    (execute_problem minSpec (some "trace-1") none (some tNow)).toOption.map
      (fun res => (traceTypes res.trace, controlActions res.trace,
        finalStatusStr res, finalStepIndex res))
    = some (["header", "step", "step", "step", "step", "step", "step", "step"],
        [], "completed", 7) := by decide

/-- C6: when all preamble stages succeed, the max-steps guard fails fast
with the value error — before any trace record exists — exactly when
`settings.max_steps` is set and smaller than the required step count
(`len(steps) + (max_iterations − 1) · segment_length` with a loop, else
`len(steps)`); otherwise execution proceeds into the core runner. -/
theorem C6_max_steps_guard (spec : Dict) (tid ev nw : Option String)
    (steps : List String) (cfg : Option LoopConfig) (bounds : Option LoopBounds)
    (hv : validate_problem_spec spec = .ok ())
    (hsem : validate_semver (.str (engineVersionValue ev)) "engine_version" = .ok ())
    (hiso : validate_iso8601_utc (nowValue0 spec nw) "now" = .ok ())
    (hsteps : engine_resolve_steps spec = .ok steps)
    (hl : parse_loop_config spec = .ok cfg)
    (hb : resolve_bounds_stage steps cfg = .ok bounds) :
    (∀ c b2, cfg = some c → bounds = some b2 →
      requiredStepCount steps cfg bounds =
        steps.length + (c.max_iterations - 1) * b2.segment_length) ∧
    (cfg = none → requiredStepCount steps cfg bounds = (steps.length : Int)) ∧
    (jIsNull (getOr (specSettings spec) "max_steps") = false →
      pyToInt (getOr (specSettings spec) "max_steps") < requiredStepCount steps cfg bounds →
      execute_problem spec tid ev nw =
        .error "settings.max_steps is lower than required step count") ∧
    ((jIsNull (getOr (specSettings spec) "max_steps") = true ∨
      requiredStepCount steps cfg bounds ≤ pyToInt (getOr (specSettings spec) "max_steps")) →
      execute_problem spec tid ev nw =
        executeCore spec (traceIdValue spec tid) (engineVersionValue ev)
          (pyStr (nowValue0 spec nw)) steps cfg bounds) := by
  refine ⟨?_, ?_, ?_, ?_⟩
  · intro c b2 hc hb2
    subst hc; subst hb2
    rfl
  · intro hc
    subst hc
    have hbn : bounds = none := by
      simp only [resolve_bounds_stage, Except.ok.injEq] at hb
      exact hb.symm
    subst hbn
    rfl
  · intro h1 h2
    unfold execute_problem
    simp only [hv, hsem, hiso, hsteps, hl, hb, bind, Except.bind, h1, h2,
      Bool.not_false, decide_true_eq_true]
    simp [throw, throwThe, MonadExceptOf.throw, h2]
  · intro hrg
    unfold execute_problem
    have hguard : (!(jIsNull (getOr (specSettings spec) "max_steps")) &&
        pyToInt (getOr (specSettings spec) "max_steps") <
          requiredStepCount steps cfg bounds) = false := by
      rcases hrg with h1 | h2
      · simp [h1]
      · simp [not_lt_of_le h2]
    simp only [hv, hsem, hiso, hsteps, hl, hb, bind, Except.bind, hguard,
      Bool.false_eq_true, if_false, pure, Except.pure]

/-- Witness for C6: scenario 5 (loop length 3 × 2 iterations versus
`max_steps = 5`) is rejected with the value error, while the minimal spec
(no `max_steps`) proceeds into the core runner. -/
theorem C6_max_steps_guard_witness :
    execute_problem maxStepsSpec none none (some tNow) =
      .error "settings.max_steps is lower than required step count" ∧
    execute_problem minSpec (some "trace-1") none (some tNow) =
      executeCore minSpec "trace-1" "0.1.0" tNow DEFAULT_POLICY_STEPS none none := by
  constructor
  · exact (C6_max_steps_guard maxStepsSpec none none (some tNow)
      DEFAULT_POLICY_STEPS (some maxStepsCfg) (some maxStepsBounds)
      rfl rfl rfl rfl rfl rfl).2.2.1 (by decide) (by decide)
  · exact (C6_max_steps_guard minSpec (some "trace-1") none (some tNow)
      DEFAULT_POLICY_STEPS none none
      rfl rfl rfl rfl rfl rfl).2.2.2 (Or.inl (by decide))

/-- A failed step result carries `status = "failed"`, exactly the given
errors, and passes `validate_step_result`. -/
theorem step_result_failed_fields (step a b : String) (ip : Dict) (errs : List J) :
    getOr (step_result step "failed" a b ip (some []) (some errs)) "status" = .str "failed" ∧
    getOr (step_result step "failed" a b ip (some []) (some errs)) "errors" = .arr errs ∧
    validate_step_result (step_result step "failed" a b ip (some []) (some errs)) = .ok () := by
  refine ⟨?_, ?_, ?_⟩ <;>
    simp [step_result, validate_step_result, jsetKey, getOr, jlookup, jIsStr,
      pure, Except.pure, bind, Except.bind]

/-- Closing step for the C7 proof: project the returned pair. -/
theorem normalize_fail_close (state : Dict) (R : Rec) (errs : List J)
    (h1 : getOr R "status" = .str "failed")
    (h2 : getOr R "errors" = .arr errs) :
    (Except.ok (state, R) : Except String (Dict × Rec)).toOption.map
      (fun pr => (pr.1, resultStatusStr pr.2, getOr pr.2 "errors"))
    = some (state, "failed", .arr errs) := by
  simp [Except.toOption, resultStatusStr, h1, h2]

/-- C7: on every valid state (one that passes `validate_state` and whose
`problem` and `problem.inputs` slots are dict-shaped as the data model
requires) and non-empty `now`, a missing, non-string, or blank-after-trim
prompt makes Normalize return the failed result with errors
`[(code: invalid_prompt, message: prompt is required)]` and the state
unchanged — the returned state is exactly the input state, so
`step_index`, `artifacts` and `status` are untouched. -/
theorem C7_normalize_invalid_prompt (state : Dict) (nw : String)
    (problem inputs : Dict)
    (hnw : nw ≠ "")
    (hv : validate_state state = .ok ())
    (hp : pyDictOr (getOr state "problem") = .ok problem)
    (hi : pyDictOr (getOr problem "inputs") = .ok inputs)
    (hbad : promptInvalid (getOr inputs "prompt") = true) :
    (normalize state (some nw)).toOption.map
      (fun pr => (pr.1, resultStatusStr pr.2, getOr pr.2 "errors"))
    = some (state, "failed",
        .arr [.obj [("code", .str "invalid_prompt"),
                    ("message", .str "prompt is required")]]) := by
  have hfields := step_result_failed_fields "Normalize" nw nw
    [("prompt", getOr inputs "prompt")]
    [.obj [("code", .str "invalid_prompt"), ("message", .str "prompt is required")]]
  cases hpv : getOr inputs "prompt" with
  | str s =>
    have hs : pyStrip s = "" := by
      have h2 := hbad
      rw [hpv] at h2
      simpa [promptInvalid] using h2
    rw [hpv] at hfields
    simp only [normalize, hv, hp, hi, bind, Except.bind, now_required, hnw, if_false, hpv,
      hs, if_true, hfields.2.2]
    exact normalize_fail_close state _ _ hfields.1 hfields.2.1
  | null =>
    rw [hpv] at hfields
    simp only [normalize, hv, hp, hi, bind, Except.bind, now_required, hnw, if_false, hpv,
      hfields.2.2]
    exact normalize_fail_close state _ _ hfields.1 hfields.2.1
  | bool bb =>
    rw [hpv] at hfields
    simp only [normalize, hv, hp, hi, bind, Except.bind, now_required, hnw, if_false, hpv,
      hfields.2.2]
    exact normalize_fail_close state _ _ hfields.1 hfields.2.1
  | int n =>
    rw [hpv] at hfields
    simp only [normalize, hv, hp, hi, bind, Except.bind, now_required, hnw, if_false, hpv,
      hfields.2.2]
    exact normalize_fail_close state _ _ hfields.1 hfields.2.1
  | arr xs =>
    rw [hpv] at hfields
    simp only [normalize, hv, hp, hi, bind, Except.bind, now_required, hnw, if_false, hpv,
      hfields.2.2]
    exact normalize_fail_close state _ _ hfields.1 hfields.2.1
  | obj kvs =>
    rw [hpv] at hfields
    simp only [normalize, hv, hp, hi, bind, Except.bind, now_required, hnw, if_false, hpv,
      hfields.2.2]
    exact normalize_fail_close state _ _ hfields.1 hfields.2.1

/-- Witness for C7 at a valid state whose prompt is "   ". -/
theorem C7_normalize_invalid_prompt_witness :
    (normalize blankPromptState (some tNow)).toOption.map
      (fun pr => (pr.1, resultStatusStr pr.2, getOr pr.2 "errors"))
    = some (blankPromptState, "failed",
        .arr [.obj [("code", .str "invalid_prompt"),
                    ("message", .str "prompt is required")]]) :=
  C7_normalize_invalid_prompt blankPromptState tNow _ _ (by decide) rfl rfl rfl (by decide)

/-- The code's path resolution equals the spec-side one, with Python
`None` standing for both a stored null and an absent segment. -/
theorem resolve_code_spec (segs : List String) (v : J) :
    resolveSegsCode segs v = (resolvePathSpec segs v).getD J.null := by
  induction segs generalizing v with
  | nil => rfl
  | cons seg rest ih =>
    cases v with
    | obj kvs =>
      simp only [resolveSegsCode, resolvePathSpec]
      cases h : jlookup kvs seg with
      | some w => simp [ih]
      | none => rfl
    | null => rfl
    | bool b => rfl
    | int n => rfl
    | str s => rfl
    | arr xs => rfl

/-- C8: the stop predicate behaves exactly as the spec describes it — the
dotted path is resolved by walking into mappings only (never lists), a
missing segment yields absent and an absent value makes the predicate
false; a present value is compared with value equality for
`equals`/`not_equals`, and the comparison operators are true only when
the resolved left value is a non-boolean integer satisfying the
comparison. -/
theorem C8_stop_predicate (state : Dict) (cfg : LoopConfig) :
    stop_condition_met state cfg = stopSpecMet state cfg := by
  unfold stop_condition_met stopSpecMet resolve_path
  rw [resolve_code_spec]
  cases h : resolvePathSpec (splitDots cfg.stop_path) (.obj state) with
  | none => simp [jIsNull]
  | some v =>
    cases v with
    | null => simp [jIsNull]
    | bool b => simp [jIsNull]
    | int n => simp [jIsNull]
    | str s => simp [jIsNull]
    | arr xs => simp [jIsNull]
    | obj kvs => simp [jIsNull]

/-- C9 as stated is false on the code: `build_orchestration_plan` rejects
`orchestration_framework = "adapter"` with a validation error, while it
accepts `"langgraph"`. -/
theorem C9_counterexample :
    build_orchestration_plan specAdapter =
      .error "problem_spec.settings.orchestration_framework must be native or langgraph" ∧
    (build_orchestration_plan specLanggraph).isOk = true :=
  ⟨rfl, rfl⟩

/-- C9 amended: when the spec validates and the policy stages succeed, the
engine accepts exactly the `orchestration_framework` values `"native"` and
`"langgraph"` (a missing or falsy value defaults to `"native"`), and any
other value is rejected with a validation error before any step executes
— `execute_problem` returns the error and produces no trace. -/
theorem C9_framework_amended (spec : Dict) (steps : List String)
    (hv : validate_problem_spec spec = .ok ())
    (hres : resolve_steps spec = .ok steps)
    (hknown : ensure_steps_known steps KNOWN_STEPS = .ok ())
    (huniq : validate_unique_steps steps = .ok ())
    (hne : steps.isEmpty = false) :
    ((jIsStr (pyOr (getOr (specSettings spec) "orchestration_framework") (.str "native"))
        "native" ||
      jIsStr (pyOr (getOr (specSettings spec) "orchestration_framework") (.str "native"))
        "langgraph") = true →
      build_orchestration_plan spec =
        .ok { framework := pyOr (getOr (specSettings spec) "orchestration_framework")
                (.str "native"),
              steps := steps }) ∧
    ((jIsStr (pyOr (getOr (specSettings spec) "orchestration_framework") (.str "native"))
        "native" ||
      jIsStr (pyOr (getOr (specSettings spec) "orchestration_framework") (.str "native"))
        "langgraph") = false →
      build_orchestration_plan spec =
        .error "problem_spec.settings.orchestration_framework must be native or langgraph" ∧
      ∀ tid ev nw,
        validate_semver (.str (engineVersionValue ev)) "engine_version" = .ok () →
        validate_iso8601_utc (nowValue0 spec nw) "now" = .ok () →
        execute_problem spec tid ev nw =
          .error "problem_spec.settings.orchestration_framework must be native or langgraph") := by
  constructor
  · intro hfw
    unfold build_orchestration_plan
    simp only [hv, bind, Except.bind]
    rw [show (match getOr spec "settings" with
        | .obj kvs => kvs
        | _ => ([] : Dict)) = specSettings spec from rfl]
    simp only [hfw, Bool.not_true, Bool.false_eq_true, if_false, hres, hknown, huniq]
    unfold build_linear_graph
    simp [hne, pure, Except.pure, bind, Except.bind, discard, Functor.mapConst,
      Except.map]
  · intro hfw
    have hbuild : build_orchestration_plan spec =
        .error "problem_spec.settings.orchestration_framework must be native or langgraph" := by
      unfold build_orchestration_plan
      simp only [hv, bind, Except.bind]
      rw [show (match getOr spec "settings" with
          | .obj kvs => kvs
          | _ => ([] : Dict)) = specSettings spec from rfl]
      simp [hfw, throw, throwThe, MonadExceptOf.throw]
    refine ⟨hbuild, ?_⟩
    intro tid ev nw hsem hiso
    have hrs : engine_resolve_steps spec =
        .error "problem_spec.settings.orchestration_framework must be native or langgraph" := by
      unfold engine_resolve_steps
      simp [hbuild, bind, Except.bind]
    unfold execute_problem
    simp [hv, hsem, hiso, hrs, bind, Except.bind]

/-- Witness for the amended C9: `"langgraph"` is accepted, `"adapter"` is
rejected at the plan level and by `execute_problem`. -/
theorem C9_framework_amended_witness :
    build_orchestration_plan specLanggraph =
      .ok { framework := .str "langgraph", steps := DEFAULT_POLICY_STEPS } ∧
    build_orchestration_plan specAdapter =
      .error "problem_spec.settings.orchestration_framework must be native or langgraph" ∧
    execute_problem specAdapter none none (some tNow) =
      .error "problem_spec.settings.orchestration_framework must be native or langgraph" := by
  refine ⟨?_, ?_, ?_⟩
  · exact (C9_framework_amended specLanggraph DEFAULT_POLICY_STEPS
      rfl rfl rfl rfl rfl).1 (by decide)
  · exact ((C9_framework_amended specAdapter DEFAULT_POLICY_STEPS
      rfl rfl rfl rfl rfl).2 (by decide)).1
  · exact ((C9_framework_amended specAdapter DEFAULT_POLICY_STEPS
      rfl rfl rfl rfl rfl).2 (by decide)).2 none none (some tNow) rfl rfl

theorem getOr_jsetKey_self (kvs : Dict) (k : String) (v : J) :
    getOr (jsetKey kvs k v) k = v := by
  unfold getOr
  rw [jlookup_jsetKey_self]
  rfl

theorem getOr_jsetKey_ne (kvs : Dict) (k k' : String) (v : J) (h : k' ≠ k) :
    getOr (jsetKey kvs k v) k' = getOr kvs k' := by
  unfold getOr
  rw [jlookup_jsetKey_ne _ _ _ _ h]

/-- `parse_loop_tail` never reads the `enabled` key. -/
theorem parse_loop_tail_set_enabled (loopD : Dict) (v : J) :
    parse_loop_tail (jsetKey loopD "enabled" v) = parse_loop_tail loopD := by
  unfold parse_loop_tail
  rw [getOr_jsetKey_ne _ _ _ _ (by decide), getOr_jsetKey_ne _ _ _ _ (by decide),
    getOr_jsetKey_ne _ _ _ _ (by decide), getOr_jsetKey_ne _ _ _ _ (by decide)]

/-- C10: a loop object with `enabled = false` parses to no loop
configuration; a loop object without an `enabled` key parses exactly as
with `enabled = true`; a run without a loop configuration appends no
control records; and without a loop configuration the bounds stage yields
no bounds and the required step count for the max-steps check is just the
number of steps. -/
theorem C10_loop_disabled_semantics :
    (∀ (spec settings loopD : Dict),
      getOr spec "settings" = .obj settings →
      getOr settings "loop" = .obj loopD →
      jlookup loopD "enabled" = some (.bool false) →
      parse_loop_config spec = .ok none) ∧
    (∀ (spec settings loopD : Dict),
      getOr spec "settings" = .obj settings →
      getOr settings "loop" = .obj loopD →
      jlookup loopD "enabled" = none →
      parse_loop_config spec = parse_loop_config (withLoopEnabledTrue spec settings loopD)) ∧
    (∀ (spec : Dict) (tid ev nw : Option String) (res : ExecutionResult),
      parse_loop_config spec = .ok none →
      execute_problem spec tid ev nw = .ok res →
      controlActions res.trace = []) ∧
    (∀ (steps : List String) (bounds : Option LoopBounds),
      resolve_bounds_stage steps none = .ok none ∧
      requiredStepCount steps none bounds = (steps.length : Int)) := by
  refine ⟨?_, ?_, ?_, ?_⟩
  · intro spec settings loopD hsp hld hen
    have hdef : getDefault loopD "enabled" (.bool true) = .bool false := by
      unfold getDefault
      rw [hen]
      rfl
    simp [parse_loop_config, hsp, hld, hdef, jIsNull, bind, Except.bind, pure, Except.pure]
  · intro spec settings loopD hsp hld hen
    have hdefL : getDefault loopD "enabled" (.bool true) = .bool true := by
      unfold getDefault
      rw [hen]
      rfl
    have hspR : getOr (withLoopEnabledTrue spec settings loopD) "settings" =
        .obj (jsetKey settings "loop" (.obj (jsetKey loopD "enabled" (.bool true)))) := by
      unfold withLoopEnabledTrue
      exact getOr_jsetKey_self _ _ _
    have hldR : getOr (jsetKey settings "loop" (.obj (jsetKey loopD "enabled" (.bool true))))
        "loop" = .obj (jsetKey loopD "enabled" (.bool true)) :=
      getOr_jsetKey_self _ _ _
    have hdefR : getDefault (jsetKey loopD "enabled" (.bool true)) "enabled" (.bool true) =
        .bool true := by
      unfold getDefault
      rw [jlookup_jsetKey_self]
      rfl
    simp only [parse_loop_config, hsp, hld, hdefL, hspR, hldR, hdefR, jIsNull,
      bind, Except.bind, pure, Except.pure, Bool.not_true, Bool.false_eq_true, if_false]
    exact (parse_loop_tail_set_enabled loopD (.bool true)).symm
  · intro spec tid ev nw res hnone h
    obtain ⟨steps, cfg, bounds, _, hl, _, hcore⟩ :=
      execute_problem_stages spec tid ev nw res h
    have hcfg : cfg = none := by
      rw [hnone] at hl
      exact (Except.ok.injEq _ _ ▸ congrArg id hl : (none : Option LoopConfig) = cfg).symm
    subst hcfg
    exact (executeCore_invariants _ _ _ _ _ _ _ _ hcore).2.2 rfl
  · intro steps bounds
    exact ⟨rfl, by cases bounds <;> rfl⟩

/-- Witness for C10: the disabled-loop spec parses to no configuration,
and the minimal run (no loop) succeeds with no control records. -/
theorem C10_loop_disabled_semantics_witness :
    parse_loop_config specLoopDisabled = .ok none ∧
    (execute_problem minSpec (some "trace-1") none (some tNow)).toOption.isSome = true ∧
    controlActions (resultTrace (execute_problem minSpec (some "trace-1") none (some tNow))) = [] := by
  refine ⟨?_, rfl, ?_⟩
  · exact C10_loop_disabled_semantics.1 specLoopDisabled
      [("loop", .obj [("enabled", .bool false)])] [("enabled", .bool false)] rfl rfl rfl
  · cases h : execute_problem minSpec (some "trace-1") none (some tNow) with
    | ok res =>
      exact C10_loop_disabled_semantics.2.2.1 minSpec (some "trace-1") none
        (some tNow) res rfl h
    | error e =>
      have hs : (execute_problem minSpec (some "trace-1") none (some tNow)).toOption.isSome
          = true := rfl
      rw [h] at hs
      simp [Except.toOption] at hs

/-- Splicing the loop-exhaustion error into a state whose `metadata` slot
is dict-shaped succeeds and leaves the error in `errors`. -/
theorem ensure_failed_loop_error (stt : Dict) (cfg : LoopConfig) (now : String)
    (hm : metadataShapeOk stt = true) :
    ∃ s2, ensure_failed_state stt [("errors", .arr [loopMaxIterError cfg])] now = .ok s2 ∧
      hasLoopMaxIterError s2 cfg = true := by
  obtain ⟨m, hm2⟩ : ∃ m, pyDictOr (getOr stt "metadata") = .ok m := by
    unfold metadataShapeOk at hm
    cases hp : pyDictOr (getOr stt "metadata") with
    | ok m => exact ⟨m, rfl⟩
    | error e => rw [hp] at hm; simp at hm
  have hmeta1 : getOr (jsetKey (jsetKey stt "status" (.str "failed")) "errors"
      (.arr ((match pyOr (getOr (jsetKey stt "status" (.str "failed")) "errors") (.arr [])
        with
        | .arr xs => xs
        | _ => []) ++ [loopMaxIterError cfg]))) "metadata" = getOr stt "metadata" := by
    rw [getOr_jsetKey_ne _ _ _ _ (by decide), getOr_jsetKey_ne _ _ _ _ (by decide)]
  refine ⟨jsetKey (jsetKey (jsetKey stt "status" (.str "failed")) "errors"
      (.arr ((match pyOr (getOr (jsetKey stt "status" (.str "failed")) "errors") (.arr []) with
        | .arr xs => xs
        | _ => []) ++ [loopMaxIterError cfg]))) "metadata"
      (.obj (jsetKey m "updated_at" (.str now))), ?_, ?_⟩
  · unfold ensure_failed_state
    have e1 : getOr [("errors", J.arr [loopMaxIterError cfg])] "errors"
        = .arr [loopMaxIterError cfg] := rfl
    have e3 : pyOr (J.arr [loopMaxIterError cfg]) (.arr []) = .arr [loopMaxIterError cfg] := rfl
    have e4 : ∀ xs : List J, (xs ++ [loopMaxIterError cfg]).isEmpty = false := by
      intro xs; cases xs <;> rfl
    simp only [bind, Except.bind, pure, Except.pure, e1, e3, e4, jtruthy,
      List.isEmpty_cons, Bool.not_false, eq_self_iff_true, if_true]
    rw [hmeta1, hm2]
  · unfold hasLoopMaxIterError
    rw [getOr_jsetKey_ne _ _ _ _ (by decide), getOr_jsetKey_self]
    simp only [List.any_append]
    have hE : [loopMaxIterError cfg].any (fun e =>
        match e with
        | .obj kvs =>
          jIsStr (getOr kvs "code") "loop_max_iterations_reached" &&
            jIsStr (getOr kvs "message") ("Loop stop condition not met after "
              ++ toString cfg.max_iterations ++ " iteration(s).") &&
            jIsStr (getOr kvs "step") cfg.end_step
        | _ => false) = true := by
      simp [loopMaxIterError, getOr, jlookup, jIsStr]
    rw [hE]
    simp

theorem c5_outcome_repeat (steps : List String) (cfg : LoopConfig) (b : LoopBounds)
    (now : String) (st : RunSt) (A : Dict) (R : Rec)
    (hcur : st.step_cursor = b.end_index)
    (hit : 1 ≤ st.loop_iteration)
    (hfailed : st.failed = false)
    (hhandler : stepHandler (steps.getD st.step_cursor "") st.state (some now) = .ok (A, R))
    (hnotfail : jIsStr (getOr R "status") "failed" = false)
    (hstop : stop_condition_met A cfg = false)
    (hlt : st.loop_iteration < cfg.max_iterations) :
    stepOutcome steps (some cfg) (some b) now st =
      .ok { state_after := A, result := R, loop_action := some "repeat",
            loop_iteration_for_record := st.loop_iteration,
            next_cursor := b.start_index,
            loop_iteration := st.loop_iteration + 1, failed := false } := by
  unfold stepOutcome
  have h0 : decide (st.loop_iteration = 0) = false := by
    simp only [decide_eq_false_iff_not]
    omega
  have hgt : decide (st.loop_iteration > 0) = true := by
    simp only [decide_eq_true_eq]
    omega
  have hc : decide (st.step_cursor = b.end_index) = true := by
    simp [hcur]
  simp only [hhandler, bind, Except.bind, hnotfail, hfailed, Bool.or_false,
    Bool.false_eq_true, if_false, pure, Except.pure, h0, Bool.and_false,
    hgt, hc, Bool.and_true, Bool.true_and, if_true, hstop]
  rw [if_pos hlt]

theorem c5_outcome_exhaust (steps : List String) (cfg : LoopConfig) (b : LoopBounds)
    (now : String) (st : RunSt) (A A2 : Dict) (R : Rec)
    (hcur : st.step_cursor = b.end_index)
    (hit : 1 ≤ st.loop_iteration)
    (hfailed : st.failed = false)
    (hhandler : stepHandler (steps.getD st.step_cursor "") st.state (some now) = .ok (A, R))
    (hnotfail : jIsStr (getOr R "status") "failed" = false)
    (hstop : stop_condition_met A cfg = false)
    (heq : st.loop_iteration = cfg.max_iterations)
    (hA2 : ensure_failed_state A [("errors", .arr [loopMaxIterError cfg])] now = .ok A2) :
    stepOutcome steps (some cfg) (some b) now st =
      .ok { state_after := A2, result := R, loop_action := some "max_iterations_reached",
            loop_iteration_for_record := st.loop_iteration,
            next_cursor := st.step_cursor + 1,
            loop_iteration := st.loop_iteration, failed := true } := by
  unfold stepOutcome
  have h0 : decide (st.loop_iteration = 0) = false := by
    simp only [decide_eq_false_iff_not]
    omega
  have hgt : decide (st.loop_iteration > 0) = true := by
    simp only [decide_eq_true_eq]
    omega
  have hc : decide (st.step_cursor = b.end_index) = true := by
    simp [hcur]
  simp only [hhandler, bind, Except.bind, hnotfail, hfailed, Bool.or_false,
    Bool.false_eq_true, if_false, pure, Except.pure, h0, Bool.and_false,
    hgt, hc, Bool.and_true, Bool.true_and, if_true, hstop]
  rw [if_neg (by omega), hA2]

theorem stepOnceView_of_outcome (steps : List String) (cfg : LoopConfig) (b : LoopBounds)
    (now : String) (st : RunSt) (o : StepOutcome) (action : String)
    (ho : stepOutcome steps (some cfg) (some b) now st = .ok o)
    (ha : o.loop_action = some action) :
    stepOnceView steps cfg b now st =
      some (o.failed, if o.failed then st.step_cursor else o.next_cursor, o.loop_iteration,
        traceTypes st.trace ++ ["step", "control"],
        controlActions st.trace ++ [action]) := by
  unfold stepOnceView stepOnce
  simp only [ho, bind, Except.bind, ha, pure, Except.pure]
  simp [traceTypes_append, controlActions_append, traceTypes,
    step_type, control_type, control_action, controlActions_step_rec,
    controlActions_control_rec, controlActions, List.filter_append]

theorem stepOnceErrFlag_of_outcome (steps : List String) (cfg : LoopConfig) (b : LoopBounds)
    (now : String) (st : RunSt) (o : StepOutcome)
    (ho : stepOutcome steps (some cfg) (some b) now st = .ok o) :
    stepOnceErrFlag steps cfg b now st = hasLoopMaxIterError o.state_after cfg := by
  unfold stepOnceErrFlag stepOnce
  simp only [ho, bind, Except.bind, pure, Except.pure]

theorem engineLoop_stops_when_failed (steps : List String) (cfgO : Option LoopConfig)
    (boundsO : Option LoopBounds) (now : String) (st st2 : RunSt) (fuel : Nat)
    (hlen : st.step_cursor < steps.length)
    (hso : stepOnce steps cfgO boundsO now st = .ok st2)
    (hf2 : st2.failed = true) :
    engineLoop steps cfgO boundsO now (fuel + 1) st = stepOnce steps cfgO boundsO now st := by
  rw [engineLoop, if_pos hlen, hso]
  simp [bind, Except.bind, hf2, pure, Except.pure]

/-- C5: the loop cursor protocol — when the loop is configured and the
step at `end_index` finishes on iteration `it` with the stop condition
not satisfied, then: if `it < max_iterations`, a step record and a
control record with action `repeat` are appended, the cursor returns to
`start_index` and `it` is incremented; once `it = max_iterations`, a
control record with action `max_iterations_reached` is appended, the run
is marked failed, the state carries the error
`(code: loop_max_iterations_reached, message: "Loop stop condition not
met after N iteration(s).", step: end_step)` with `N = max_iterations`,
and the cursor loop stops with this iteration. -/
theorem C5_loop_cursor_protocol (steps : List String) (cfg : LoopConfig)
    (b : LoopBounds) (now : String) (st : RunSt) (A : Dict) (R : Rec)
    (hcur : st.step_cursor = b.end_index)
    (hlen : st.step_cursor < steps.length)
    (hit : 1 ≤ st.loop_iteration)
    (hfailed : st.failed = false)
    (hhandler : stepHandler (steps.getD st.step_cursor "") st.state (some now) = .ok (A, R))
    (hnotfail : jIsStr (getOr R "status") "failed" = false)
    (hstop : stop_condition_met A cfg = false)
    (hmeta : metadataShapeOk A = true) :
    (st.loop_iteration < cfg.max_iterations →
      stepOnceView steps cfg b now st =
        some (false, b.start_index, st.loop_iteration + 1,
          traceTypes st.trace ++ ["step", "control"],
          controlActions st.trace ++ ["repeat"])) ∧
    (st.loop_iteration = cfg.max_iterations →
      stepOnceView steps cfg b now st =
        some (true, st.step_cursor, st.loop_iteration,
          traceTypes st.trace ++ ["step", "control"],
          controlActions st.trace ++ ["max_iterations_reached"]) ∧
      stepOnceErrFlag steps cfg b now st = true ∧
      ∀ fuel : Nat, engineLoop steps (some cfg) (some b) now (fuel + 1) st =
        stepOnce steps (some cfg) (some b) now st) := by
  constructor
  · intro hlt
    have ho := c5_outcome_repeat steps cfg b now st A R hcur hit hfailed hhandler
      hnotfail hstop hlt
    have hv := stepOnceView_of_outcome steps cfg b now st _ "repeat" ho rfl
    simpa using hv
  · intro heq
    obtain ⟨A2, hA2, herr⟩ := ensure_failed_loop_error A cfg now hmeta
    have ho := c5_outcome_exhaust steps cfg b now st A A2 R hcur hit hfailed hhandler
      hnotfail hstop heq hA2
    refine ⟨?_, ?_, ?_⟩
    · have hv := stepOnceView_of_outcome steps cfg b now st _ "max_iterations_reached" ho rfl
      simpa using hv
    · have he := stepOnceErrFlag_of_outcome steps cfg b now st _ ho
      rw [he]
      exact herr
    · intro fuel
      have hso : ∃ st2, stepOnce steps (some cfg) (some b) now st = .ok st2 ∧
          st2.failed = true := by
        unfold stepOnce
        simp only [ho, bind, Except.bind, pure, Except.pure]
        exact ⟨_, rfl, rfl⟩
      obtain ⟨st2, hso2, hf2⟩ := hso
      exact engineLoop_stops_when_failed steps (some cfg) (some b) now st st2 fuel
        hlen hso2 hf2

/-- Witness for C5: a one-step loop with `max_iterations = 2`, exercised
on iteration 1 (repeat) and on iteration 2 (exhaustion). -/
theorem C5_loop_cursor_protocol_witness :
    stepOnceView wSteps wCfg wBounds tNow wSt1 =
      some (false, 0, 2, ["step", "control"], ["repeat"]) ∧
    stepOnceView wSteps wCfg wBounds tNow wSt2 =
      some (true, 0, 2, ["step", "control"], ["max_iterations_reached"]) ∧
    stepOnceErrFlag wSteps wCfg wBounds tNow wSt2 = true ∧
    engineLoop wSteps (some wCfg) (some wBounds) tNow 1 wSt2 =
      stepOnce wSteps (some wCfg) (some wBounds) tNow wSt2 := by
  refine ⟨?_, ?_, ?_, ?_⟩
  · exact (C5_loop_cursor_protocol wSteps wCfg wBounds tNow wSt1 _ _
      (by decide) (by decide) (by decide) rfl rfl (by decide) (by decide) (by decide)).1
      (by decide)
  · exact ((C5_loop_cursor_protocol wSteps wCfg wBounds tNow wSt2 _ _
      (by decide) (by decide) (by decide) rfl rfl (by decide) (by decide) (by decide)).2
      (by decide)).1
  · exact ((C5_loop_cursor_protocol wSteps wCfg wBounds tNow wSt2 _ _
      (by decide) (by decide) (by decide) rfl rfl (by decide) (by decide) (by decide)).2
      (by decide)).2.1
  · exact ((C5_loop_cursor_protocol wSteps wCfg wBounds tNow wSt2 _ _
      (by decide) (by decide) (by decide) rfl rfl (by decide) (by decide) (by decide)).2
      (by decide)).2.2 0


end DetEngine
